import Mathlib

/-!
Verification of the data-sourcing and fallback-decision subsystem of the
`netlifyrestore` market-data gateway.

The JavaScript sources are shallowly embedded:
* JS strings are Lean `String`s; every string operation used by the code
  (trim, toLowerCase, includes, split, parseInt, ...) is re-implemented over
  the underlying character list so that it evaluates inside the kernel.
* JS numbers are rationals (`ℚ`); `Number.prototype.toFixed(n)` is modelled as
  rounding to `n` decimal places with ties rounded up, which agrees with the
  JS semantics for the non-negative values produced by this code.
* `Math.random()` and `Math.sin` are modelled as oracle functions supplied as
  explicit arguments; `Date.now()` is a per-call integer clock parameter and
  ISO-date rendering is an oracle `Int → String`.
* `process.env` is an association list of string pairs, in JS enumeration
  order.
* `fetch` and `response.json()` are modelled by an outcome oracle: either the
  pair throws (network error / JSON parse error) or it yields an HTTP status
  together with a parsed JSON value.
-/

/-! ## JS string primitives over character lists -/

/-- JS `String.prototype.trim` (whitespace stripped from both ends). -/
def jsTrim (s : String) : String :=
  String.mk (((s.data.dropWhile Char.isWhitespace).reverse.dropWhile
    Char.isWhitespace).reverse)

/-- JS `String.prototype.toLowerCase` (ASCII range, as used by this code). -/
def jsToLower (s : String) : String := String.mk (s.data.map Char.toLower)

/-- JS `String.prototype.toUpperCase` (ASCII range, as used by this code). -/
def jsToUpper (s : String) : String := String.mk (s.data.map Char.toUpper)

/-- Does `pat` occur as a contiguous sublist of `l`? (JS `includes`.) -/
def charsContain (l pat : List Char) : Bool :=
  match l with
  | [] => pat.isEmpty
  | _ :: rest => (pat.isPrefixOf l) || charsContain rest pat

/-- JS `String.prototype.includes`. -/
def strIncludes (s pat : String) : Bool := charsContain s.data pat.data

/-- JS `String.prototype.endsWith`. -/
def strEndsWith (s pat : String) : Bool :=
  pat.data.reverse.isPrefixOf s.data.reverse

/-- Numeric value of a list of decimal digit characters. -/
def digitsVal (l : List Char) : Nat :=
  l.foldl (fun a c => a * 10 + (c.toNat - '0'.toNat)) 0

/-- JS `parseInt(s, 10)`: skip leading whitespace, optional sign, then the
leading run of decimal digits; `none` models `NaN`. -/
def jsParseInt (s : String) : Option Int :=
  let l := s.data.dropWhile Char.isWhitespace
  let (sign, rest) : Int × List Char :=
    match l with
    | '-' :: r => (-1, r)
    | '+' :: r => (1, r)
    | r => (1, r)
  let digits := rest.takeWhile Char.isDigit
  if digits.isEmpty then none else some (sign * digitsVal digits)

/-- JS `x || d` applied to a `parseInt` result: both `NaN` and `0` fall back
to the default. -/
def orNonzero (v : Option Int) (d : Int) : Int :=
  match v with
  | none => d
  | some n => if n = 0 then d else n

/-- JS `Array.prototype.slice(start)` (single argument, possibly negative). -/
def jsSlice {α : Type} (xs : List α) (start : Int) : List α :=
  if start < 0 then xs.drop (((xs.length : Int) + start).toNat)
  else xs.drop start.toNat

/-! ## JS numbers -/

/-- `Number.prototype.toFixed(2)` followed by `Number(...)`: round to two
decimal places (ties up, matching JS for the non-negative values that occur
here). -/
def rnd2 (x : ℚ) : ℚ := ((round (x * 100) : ℤ) : ℚ) / 100

/-- `Number.prototype.toFixed(4)` followed by `Number(...)`. -/
def rnd4 (x : ℚ) : ℚ := ((round (x * 10000) : ℤ) : ℚ) / 10000

/-! ## JSON values

A JSON value as produced by `response.json()`.  `Option Json` models a
possibly-`undefined` JS value (`none` = `undefined`). -/

inductive Json where
  | null : Json
  | bool (b : Bool) : Json
  | num (q : ℚ) : Json
  | str (s : String) : Json
  | arr (items : List Json) : Json
  | obj (fields : List (String × Json)) : Json

/-- JS truthiness of a JSON value. -/
def jsTruthy : Json → Bool
  | .null => false
  | .bool b => b
  | .num q => decide (q ≠ 0)
  | .str s => decide (s ≠ "")
  | .arr _ => true
  | .obj _ => true

/-- JS truthiness of a possibly-`undefined` value. -/
def jsTruthyOpt : Option Json → Bool
  | none => false
  | some j => jsTruthy j

/-- Property access `o.f` on a JSON value (`undefined` when absent or when
the value is not an object). -/
def jsField : Json → String → Option Json
  | .obj fields, name => fields.lookup name
  | _, _ => none

/-- `a ?? b` : nullish coalescing (skips both `null` and `undefined`). -/
def jsCoalesce (a b : Option Json) : Option Json :=
  match a with
  | none => b
  | some .null => b
  | some v => some v

/-- `Number(v)` restricted to the JSON primitives this code actually
coerces; `none` models `NaN`.  (Array/object-to-primitive coercion is not
exercised by the embedded code paths.) -/
def jsToNumber : Option Json → Option ℚ
  | none => none
  | some .null => some 0
  | some (.bool b) => some (if b then 1 else 0)
  | some (.num q) => some q
  | some (.str _) => none
  | some (.arr _) => none
  | some (.obj _) => none

/-! ## `netlify/functions/lib/env.js` — CredentialResolver -/

/-- The ordered list of recognized Tiingo token environment variable names. -/
def TIINGO_TOKEN_ENV_KEYS : List String :=
  ["TIINGO_KEY", "TIINGO_API_KEY", "TIINGO_API_TOKEN", "TIINGO_TOKEN",
   "TIINGO_ACCESS_TOKEN", "TIINGO_ACCESS_KEY", "TIINGO_AUTH_TOKEN",
   "TIINGO_SECRET", "TIINGO_API_SECRET", "REACT_APP_TIINGO_KEY",
   "REACT_APP_TIINGO_TOKEN", "REACT_APP_API_KEY", "VITE_TIINGO_KEY",
   "VITE_TIINGO_TOKEN", "VITE_APP_TIINGO_KEY", "VITE_APP_TIINGO_TOKEN"]

/-- `process.env`, in JS enumeration order. -/
abbrev EnvMap := List (String × String)

/-- `readEnvValue`: the trimmed value of an environment variable, or `""`
when absent or blank. -/
def readEnvValue (env : EnvMap) (key : String) : String :=
  match env.lookup key with
  | none => ""
  | some raw => jsTrim raw

/-- A character matched by the token classes `[a-z0-9_-]/i`. -/
def isTokenChar (c : Char) : Bool := c.isAlphanum || c == '-' || c == '_'

/-- `disallowedLiterals`: `/^(true|false|null|undefined|yes|no|0|1)$/i`. -/
def isDisallowedLiteral (s : String) : Bool :=
  jsToLower s ∈ ["true", "false", "null", "undefined", "yes", "no", "0", "1"]

/-- Strip trailing characters not satisfying `p` (used for the final
`[a-z0-9]` of the chunk pattern, backtracked from a greedy run). -/
def dropTrailingNonAlnum (l : List Char) : List Char :=
  (l.reverse.dropWhile (fun c => !c.isAlphanum)).reverse

/-- Leftmost match of `tokenChunkPattern` = `/[a-z0-9][a-z0-9_-]{22,}[a-z0-9]/i`:
at the first position whose character is alphanumeric, take the maximal run of
token characters, backtrack over trailing `-`/`_`, and accept when at least 24
characters long; otherwise continue scanning. -/
def chunkMatch : List Char → Option (List Char)
  | [] => none
  | c :: rest =>
    if c.isAlphanum then
      let run := (c :: rest).takeWhile isTokenChar
      let m := dropTrailingNonAlnum run
      if 24 ≤ m.length then some m else chunkMatch rest
    else chunkMatch rest

/-- `extractTokenCandidate(value)`: `""` models the falsy no-match result. -/
def extractTokenCandidate (value : String) : String :=
  let trimmed := jsTrim value
  if trimmed = "" ∨ isDisallowedLiteral trimmed then ""
  else if trimmed.data.all isTokenChar ∧
      24 ≤ trimmed.data.length ∧ trimmed.data.length ≤ 128 then trimmed
  else
    let parts := (trimmed.data.splitOnP (fun c => !isTokenChar c)).map String.mk
    match parts.find? (fun p =>
        p != "" && decide (24 ≤ p.data.length) && decide (p.data.length ≤ 128) &&
        p.data.all isTokenChar) with
    | some p => p
    | none =>
      match chunkMatch trimmed.data with
      | some m => String.mk m
      | none => ""

/-- A resolved credential (`{ key, token, source }`). -/
structure Credential where
  key : String
  token : String
  source : String
deriving DecidableEq

/-- `buildDetail(key, value, source)`. -/
def buildDetail (key value source : String) : Option Credential :=
  let token := extractTokenCandidate value
  if token != "" then some ⟨key, token, source⟩ else none

/-- Stage (1) of `getTiingoTokenDetail`: the recognized keys in order. -/
def stagePreferred (env : EnvMap) : Option Credential :=
  TIINGO_TOKEN_ENV_KEYS.findSome?
    (fun key => buildDetail key (readEnvValue env key) "env:preferred")

/-- Stage (2): the recognized keys lower-cased. -/
def stageLowercase (env : EnvMap) : Option Credential :=
  TIINGO_TOKEN_ENV_KEYS.findSome? (fun key =>
    buildDetail (jsToLower key) (readEnvValue env (jsToLower key))
      "env:lowercase")

/-- Stage (3): scan every environment value. -/
def stageScan (env : EnvMap) : Option Credential :=
  env.findSome? (fun kv => buildDetail kv.1 kv.2 "env:scan")

/-- Stage (4): treat each environment variable name as a candidate token. -/
def stageNameAsToken (env : EnvMap) : Option Credential :=
  env.findSome? (fun kv => buildDetail kv.1 kv.1 "env:name-as-token")

/-- `getTiingoTokenDetail()`: the four-stage credential search. -/
def getTiingoTokenDetail (env : EnvMap) : Credential :=
  match stagePreferred env with
  | some d => d
  | none =>
  match stageLowercase env with
  | some d => d
  | none =>
  match stageScan env with
  | some d => d
  | none =>
  match stageNameAsToken env with
  | some d => d
  | none => ⟨"", "", ""⟩

/-! ## `utils/mock-tiingo.js` — kind aliasing and the valuation snapshot -/

namespace MockTiingo

/-- `KIND_ALIASES`: the alias-to-canonical kind table. -/
def KIND_ALIASES : List (String × String) :=
  [("quote", "intraday_latest"), ("quotes", "intraday_latest"),
   ("intraday_latest", "intraday_latest"), ("intraday", "intraday"),
   ("eod", "eod"), ("news", "news"), ("documents", "documents"),
   ("filings", "filings"), ("actions", "actions"),
   ("fundamentals", "fundamentals"), ("statements", "statements"),
   ("overview", "overview"), ("valuation", "valuation")]

/-- `normaliseKind(kind)` of `utils/mock-tiingo.js`:
`KIND_ALIASES[String(kind || 'eod').toLowerCase()] || 'eod'`. -/
def normaliseKind (kind : Option String) : String :=
  let raw := match kind with
    | some s => if s ≠ "" then s else "eod"
    | none => "eod"
  (KIND_ALIASES.lookup (jsToLower raw)).getD "eod"

/-- Is the JS value of `typeof x === 'object'` kind (arrays included)?  The
caller has already ruled out `null` by truthiness. -/
def isObjectLike : Json → Bool
  | .obj _ => true
  | .arr _ => true
  | _ => false

/-- `getLatestQuote(record)`: explicit `quote` field, else last `intraday`
element, else last `eod` element, else `null`. -/
def getLatestQuote (record : Json) : Option Json :=
  match jsField record "quote" with
  | some q =>
    if jsTruthy q ∧ isObjectLike q then some q
    else getLatestQuoteTail record
  | none => getLatestQuoteTail record
where
  /-- The `intraday`/`eod` tail cases of `getLatestQuote`. -/
  getLatestQuoteTail (record : Json) : Option Json :=
    match jsField record "intraday" with
    | some (.arr (x :: xs)) => some ((x :: xs).getLast (by simp))
    | _ =>
      match jsField record "eod" with
      | some (.arr (x :: xs)) => some ((x :: xs).getLast (by simp))
      | _ => none

/-- Truthiness of an already numeric JS value held in an `Option`
(`none` = `null`). -/
def numTruthy : Option ℚ → Bool
  | none => false
  | some q => decide (q ≠ 0)

/-- The `valuation` object inside a snapshot. -/
structure Valuation where
  price : Option ℚ
  fairValue : Option ℚ
  suggestedEntry : Option ℚ
  upside : Option ℚ
  pe : Option ℚ
  priceToSales : Option ℚ
  priceToBook : Option ℚ
  priceToFcf : Option ℚ
  dividendYield : Option Json
  bull : Option ℚ
  base : Option ℚ
  bear : Option ℚ

/-- The result of `computeValuationSnapshot`. -/
structure ValuationSnapshot where
  symbol : String
  price : Option ℚ
  valuation : Valuation
  narrative : String
  generatedAt : String

/-- `getLatestQuote(record) || {}`. -/
def quoteOf (record : Json) : Json := (getLatestQuote record).getD (.obj [])

/-- `record?.fundamentals || null`. -/
def fundamentalsOf (record : Json) : Option Json :=
  match jsField record "fundamentals" with
  | some j => if jsTruthy j then some j else none
  | none => none

/-- `fundamentals?.metrics || {}`. -/
def metricsOf (record : Json) : Json :=
  match fundamentalsOf record with
  | some f =>
    match jsField f "metrics" with
    | some m => if jsTruthy m then m else .obj []
    | none => .obj []
  | none => .obj []

/-- `fundamentals?.latest?.<name>`. -/
def latestFieldOf (record : Json) (name : String) : Option Json :=
  match fundamentalsOf record with
  | some f =>
    match jsField f "latest" with
    | some l => jsField l name
    | none => none
  | none => none

/-- `Number(quote?.price ?? quote?.last ?? quote?.close ?? 0) || null`. -/
def priceOf (record : Json) : Option ℚ :=
  match jsToNumber (jsCoalesce (jsField (quoteOf record) "price")
      (jsCoalesce (jsField (quoteOf record) "last")
        (jsCoalesce (jsField (quoteOf record) "close") (some (.num 0))))) with
  | some q => if q ≠ 0 then some q else none
  | none => none

/-- `Number(metrics.earningsPerShare ?? metrics.eps ?? fundamentals?.latest?.eps
?? 0) || 0`. -/
def epsOf (record : Json) : ℚ :=
  (jsToNumber (jsCoalesce (jsField (metricsOf record) "earningsPerShare")
      (jsCoalesce (jsField (metricsOf record) "eps")
        (jsCoalesce (latestFieldOf record "eps") (some (.num 0)))))).getD 0

/-- `Number(metrics.revenuePerShare ?? 0) || null`. -/
def revenuePerShareOf (record : Json) : Option ℚ :=
  match jsToNumber (jsCoalesce (jsField (metricsOf record) "revenuePerShare")
      (some (.num 0))) with
  | some q => if q ≠ 0 then some q else none
  | none => none

/-- `Number(metrics.bookValuePerShare ?? fundamentals?.latest?.bookValuePerShare
?? 0) || 0`. -/
def bookValuePerShareOf (record : Json) : ℚ :=
  (jsToNumber (jsCoalesce (jsField (metricsOf record) "bookValuePerShare")
      (jsCoalesce (latestFieldOf record "bookValuePerShare")
        (some (.num 0))))).getD 0

/-- `Number(metrics.freeCashFlowPerShare ?? 0) || null`. -/
def fcfPerShareOf (record : Json) : Option ℚ :=
  match jsToNumber (jsCoalesce (jsField (metricsOf record) "freeCashFlowPerShare")
      (some (.num 0))) with
  | some q => if q ≠ 0 then some q else none
  | none => none

/-- `computeValuationSnapshot(record, symbol)`.  `nowIso` models
`new Date().toISOString()`. -/
def computeValuationSnapshot (record : Json) (symbol : String)
    (nowIso : String) : ValuationSnapshot :=
  let metrics : Json := metricsOf record
  let price : Option ℚ := priceOf record
  let eps : ℚ := epsOf record
  let revenuePerShare : Option ℚ := revenuePerShareOf record
  let bookValuePerShare : ℚ := bookValuePerShareOf record
  let fcfPerShare : Option ℚ := fcfPerShareOf record
  let fairValue : Option ℚ := price.map (fun p => rnd2 (p * 1.05))
  let suggestedEntry : Option ℚ := price.map (fun p => rnd2 (p * 0.95))
  let upside : Option ℚ :=
    if numTruthy fairValue ∧ numTruthy price then
      some (rnd4 ((fairValue.getD 0) / (price.getD 0) - 1))
    else none
  let recordSymbol : String :=
    match jsField record "symbol" with
    | some (.str s) => s
    | _ => ""
  let displaySymbol : String :=
    if symbol ≠ "" then symbol
    else if recordSymbol ≠ "" then recordSymbol else ""
  let narrativeName : String :=
    if symbol ≠ "" then symbol
    else if recordSymbol ≠ "" then recordSymbol else "Sample"
  { symbol := displaySymbol
    price := price
    valuation :=
      { price := price
        fairValue := fairValue
        suggestedEntry := suggestedEntry
        upside := upside
        pe := if eps ≠ 0 then some (rnd2 ((price.getD 0) / eps)) else none
        priceToSales :=
          match revenuePerShare with
          | some r => some (rnd2 ((price.getD 0) / r))
          | none => none
        priceToBook :=
          if bookValuePerShare ≠ 0 then
            some (rnd2 ((price.getD 0) / bookValuePerShare))
          else none
        priceToFcf :=
          match fcfPerShare with
          | some r => some (rnd2 ((price.getD 0) / r))
          | none => none
        dividendYield := jsCoalesce (jsField metrics "dividendYield") (some .null)
        bull :=
          if numTruthy fairValue then
            some (rnd2 ((fairValue.getD 0) * 1.15))
          else none
        base := fairValue
        bear :=
          if numTruthy fairValue then
            some (rnd2 ((fairValue.getD 0) * 0.85))
          else none }
    narrative := narrativeName ++ " valuation generated from bundled data."
    generatedAt := nowIso }

end MockTiingo

/-! ## The Netlify `tiingo-data` function (the canonical always-degrade
request handler) -/

namespace TiingoFn

/-- `BASE_PRICE_MAP`. -/
def BASE_PRICE_MAP : List (String × ℚ) :=
  [("AAPL", 258.0), ("MSFT", 415.0), ("GOOGL", 167.0), ("TSLA", 240.0),
   ("WOW", 26.55), ("WOW.AX", 26.55), ("CBA", 130.5), ("CBA.AX", 130.5),
   ("BHP", 42.8), ("BHP.AX", 42.8), ("CSL", 280.0), ("CSL.AX", 280.0),
   ("WES", 52.3), ("WES.AX", 52.3), ("ANZ", 29.45), ("ANZ.AX", 29.45),
   ("NAB", 37.2), ("NAB.AX", 37.2), ("WBC", 26.8), ("WBC.AX", 26.8),
   ("RIO", 118.5), ("RIO.AX", 118.5), ("TLS", 4.12), ("TLS.AX", 4.12),
   ("DEFAULT", 100.0)]

/-- `ASX_SYMBOL_MAP`. -/
def ASX_SYMBOL_MAP : List (String × String) :=
  [("WOW", "WOW.AX"), ("CBA", "CBA.AX"), ("BHP", "BHP.AX"),
   ("CSL", "CSL.AX"), ("WES", "WES.AX"), ("ANZ", "ANZ.AX"),
   ("NAB", "NAB.AX"), ("WBC", "WBC.AX"), ("RIO", "RIO.AX"),
   ("TLS", "TLS.AX")]

/-- `ensureNumber(value, fallback)` on a possibly-`undefined` JSON value. -/
def ensureNumber (value : Option Json) (fallback : ℚ := 0) : ℚ :=
  (jsToNumber value).getD fallback

/-- `previewToken(token)`. -/
def previewToken (token : Option String) : String :=
  match token with
  | none => ""
  | some t =>
    if t = "" then ""
    else
      let trimmed := jsTrim t
      if trimmed = "" then ""
      else if trimmed.data.length ≤ 4 then trimmed
      else String.mk (trimmed.data.take 4) ++ "***"

/-- `mapSymbolForAPI(symbol)`. -/
def mapSymbolForAPI (symbol : String) : String :=
  let raw := jsTrim symbol
  if raw = "" then ""
  else
    let upper := jsToUpper raw
    if strIncludes upper ".AX" then upper
    else (ASX_SYMBOL_MAP.lookup upper).getD upper

/-- `detectCurrency(symbol)`. -/
def detectCurrency (symbol : String) : String :=
  let upper := jsToUpper symbol
  if strEndsWith upper ".AX" then "AUD"
  else if strEndsWith upper ".L" ∨ strIncludes upper ".LON" then "GBP"
  else if strEndsWith upper ".TO" ∨ strEndsWith upper ".TSE" then "CAD"
  else "USD"

/-- `detectExchange(symbol)`. -/
def detectExchange (symbol : String) : String :=
  let upper := jsToUpper symbol
  if strEndsWith upper ".AX" then "ASX"
  else if strEndsWith upper ".L" ∨ strIncludes upper ".LON" then "LSE"
  else if strEndsWith upper ".TO" ∨ strEndsWith upper ".TSE" then "TSE"
  else "NASDAQ/NYSE"

/-- Field access on a possibly-`undefined` object (`quote?.last`). -/
def jsFieldOpt (q : Option Json) (name : String) : Option Json :=
  match q with
  | some j => jsField j name
  | none => none

/-- `a || b` on a possibly-`undefined` JSON value against a default. -/
def jsOrElse (a : Option Json) (b : Json) : Json :=
  match a with
  | some v => if jsTruthy v then v else b
  | none => b

/-- The normalized quote object assembled by the function. -/
structure Quote where
  symbol : String
  last : ℚ
  close : ℚ
  price : ℚ
  prevClose : ℚ
  previousClose : ℚ
  «open» : ℚ
  high : ℚ
  low : ℚ
  volume : ℚ
  change : ℚ
  changePercent : ℚ
  exchange : String
  exchangeCode : String
  currency : String
  timestamp : Json
  source : Option String

/-- `buildQuoteFromTiingo(quote, mappedSymbol, originalSymbol)`. -/
def buildQuoteFromTiingo (quote : Option Json)
    (mappedSymbol originalSymbol : String) (nowIso : String) : Quote :=
  let last := ensureNumber
    (jsCoalesce (jsFieldOpt quote "last") (jsFieldOpt quote "tngoLast")) 0
  let prevClose := ensureNumber (jsFieldOpt quote "prevClose") last
  let openV := ensureNumber (jsFieldOpt quote "open") last
  let high := ensureNumber (jsFieldOpt quote "high") (max openV last)
  let low := ensureNumber (jsFieldOpt quote "low") (min openV last)
  let change := last - prevClose
  let changePercent := if prevClose ≠ 0 then change / prevClose * 100 else 0
  let timestamp := jsOrElse (jsFieldOpt quote "timestamp")
    (jsOrElse (jsFieldOpt quote "lastSaleTimestamp") (.str nowIso))
  let exchange := detectExchange mappedSymbol
  let currency := detectCurrency mappedSymbol
  { symbol := jsToUpper originalSymbol
    last := last, close := last, price := last
    prevClose := prevClose, previousClose := prevClose
    «open» := openV, high := high, low := low
    volume := ensureNumber (jsFieldOpt quote "volume") 0
    change := change, changePercent := changePercent
    exchange := exchange, exchangeCode := exchange
    currency := currency, timestamp := timestamp, source := none }

/-- `generateFallbackQuote(originalSymbol, mappedSymbol)`; `rand i` is the
value of the `i`-th `Math.random()` call. -/
def generateFallbackQuote (originalSymbol mappedSymbol : String)
    (rand : Nat → ℚ) (nowIso : String) : Quote :=
  let key := jsToUpper
    (if mappedSymbol ≠ "" then mappedSymbol
     else if originalSymbol ≠ "" then originalSymbol else "DEFAULT")
  let base := (BASE_PRICE_MAP.lookup key).getD 100
  let last := rnd2 (base * (0.99 + rand 0 * 0.02))
  let prevClose := rnd2 (last * (0.995 + rand 1 * 0.01))
  let openV := rnd2 (last * (0.995 + rand 2 * 0.01))
  let high := rnd2 (max openV last * (1 + rand 3 * 0.01))
  let low := rnd2 (min openV last * (1 - rand 4 * 0.01))
  let change := rnd2 (last - prevClose)
  let changePercent := if prevClose ≠ 0 then rnd2 (change / prevClose * 100) else 0
  let exchange := detectExchange mappedSymbol
  let currency := detectCurrency mappedSymbol
  { symbol := jsToUpper originalSymbol
    last := last, close := last, price := last
    prevClose := prevClose, previousClose := prevClose
    «open» := openV, high := high, low := low
    volume := ((⌊rand 5 * 1500000⌋ : ℤ) : ℚ) + 250000
    change := change, changePercent := changePercent
    exchange := exchange, exchangeCode := exchange
    currency := currency, timestamp := .str nowIso
    source := some "fallback" }

/-- `parseIntervalMinutes(interval)`: first run of digits, else 5. -/
def parseIntervalMinutes (interval : Option String) : Int :=
  let value := jsToLower (jsTrim (interval.getD ""))
  let digits := (value.data.dropWhile (fun c => !c.isDigit)).takeWhile Char.isDigit
  if digits.isEmpty then 5
  else
    let raw : Int := digitsVal digits
    if 0 < raw then raw else 5

/-- An intraday price bar (live rows keep the raw `item.date` value in
`timestamp`; synthetic rows store an ISO string). -/
structure IntradayBar where
  timestamp : Option Json
  «open» : ℚ
  high : ℚ
  low : ℚ
  close : ℚ
  volume : ℚ

/-- A daily (EOD) price bar. -/
structure EodBar where
  date : Option Json
  «open» : ℚ
  high : ℚ
  low : ℚ
  close : ℚ
  volume : ℚ
  adjClose : ℚ

/-- Loop body of `generateFallbackIntradaySeries`: `j` counts completed
iterations (the JS index is `i = limit - 1 - j`), `fuel` the remaining
ones, `price` the random-walk accumulator.  Each iteration consumes the
five `Math.random()` values `rand (5*j) .. rand (5*j+4)` in call order. -/
def fallbackIntradayAux (rand : Nat → ℚ) (sinO : ℚ → ℚ) (toIso : Int → String)
    (nowMs intervalMinutes limit : Int) :
    Nat → Nat → ℚ → List IntradayBar
  | _, 0, _ => []
  | j, fuel + 1, price =>
    let i : Int := limit - 1 - (j : Int)
    let drift := sinO (((limit : ℚ) - (i : ℚ)) / 10) * 0.005
    let noise := (rand (5 * j) - 0.5) * 0.02
    let price1 := max 0.5 (price * (1 + drift + noise))
    let openV := price1 * (0.995 + rand (5 * j + 1) * 0.01)
    let closeV := price1
    let highV := max openV closeV * (1 + rand (5 * j + 2) * 0.005)
    let lowV := min openV closeV * (1 - rand (5 * j + 3) * 0.005)
    { timestamp := some (.str (toIso (nowMs - i * intervalMinutes * 60 * 1000)))
      «open» := rnd2 openV, high := rnd2 highV, low := rnd2 lowV
      close := rnd2 closeV
      volume := ((⌊rand (5 * j + 4) * 120000⌋ : ℤ) : ℚ) + 20000 }
      :: fallbackIntradayAux rand sinO toIso nowMs intervalMinutes limit
          (j + 1) fuel price1

/-- `generateFallbackIntradaySeries(originalSymbol, mappedSymbol, limit,
intervalMinutes)`. -/
def generateFallbackIntradaySeries (originalSymbol mappedSymbol : String)
    (limit intervalMinutes : Int) (rand : Nat → ℚ) (sinO : ℚ → ℚ)
    (nowMs : Int) (toIso : Int → String) : List IntradayBar :=
  let key := jsToUpper
    (if mappedSymbol ≠ "" then mappedSymbol
     else if originalSymbol ≠ "" then originalSymbol else "DEFAULT")
  let base := (BASE_PRICE_MAP.lookup key).getD 100
  fallbackIntradayAux rand sinO toIso nowMs intervalMinutes limit 0
    limit.toNat base

/-- Loop body of `generateFallbackDailySeries` (`i = limit - 1 - j`). -/
def fallbackDailyAux (rand : Nat → ℚ) (sinO : ℚ → ℚ) (toIso : Int → String)
    (nowMs limit : Int) : Nat → Nat → ℚ → List EodBar
  | _, 0, _ => []
  | j, fuel + 1, price =>
    let i : Int := limit - 1 - (j : Int)
    let drift := sinO (((limit : ℚ) - (i : ℚ)) / 14) * 0.01
    let noise := (rand (5 * j) - 0.5) * 0.03
    let price1 := max 0.5 (price * (1 + drift + noise))
    let openV := price1 * (0.98 + rand (5 * j + 1) * 0.03)
    let closeV := price1
    let highV := max openV closeV * (1 + rand (5 * j + 2) * 0.015)
    let lowV := min openV closeV * (1 - rand (5 * j + 3) * 0.015)
    let dayIso := toIso (nowMs - i * 24 * 60 * 60 * 1000)
    { date := some (.str (String.mk (dayIso.data.takeWhile (fun c => c ≠ 'T'))))
      «open» := rnd2 openV, high := rnd2 highV, low := rnd2 lowV
      close := rnd2 closeV
      volume := ((⌊rand (5 * j + 4) * 1500000⌋ : ℤ) : ℚ) + 300000
      adjClose := rnd2 closeV }
      :: fallbackDailyAux rand sinO toIso nowMs limit (j + 1) fuel price1

/-- `generateFallbackDailySeries(originalSymbol, mappedSymbol, limit)`. -/
def generateFallbackDailySeries (originalSymbol mappedSymbol : String)
    (limit : Int) (rand : Nat → ℚ) (sinO : ℚ → ℚ) (nowMs : Int)
    (toIso : Int → String) : List EodBar :=
  let key := jsToUpper
    (if mappedSymbol ≠ "" then mappedSymbol
     else if originalSymbol ≠ "" then originalSymbol else "DEFAULT")
  let base := (BASE_PRICE_MAP.lookup key).getD 100
  fallbackDailyAux rand sinO toIso nowMs limit 0 limit.toNat base

/-- `normaliseKind(kind)` of the request handler: lower-cased trimmed value,
defaulting to `"intraday_latest"` when empty. -/
def normaliseKind (kind : Option String) : String :=
  let value := jsToLower (jsTrim (kind.getD ""))
  if value ≠ "" then value else "intraday_latest"

/-- The `meta` object of the response envelope. -/
structure Meta where
  currency : String
  exchange : String
  timestamp : String
  kind : String
  source : String
  fallback : String
  reason : String
  chosenKey : String
  tokenPreview : String
  message : Option String

/-- `applyFallback(meta, source, fallbackKey, reasonMessage)`. -/
def applyFallback (meta : Meta) (source fallbackKey reasonMessage : String) :
    Meta :=
  { meta with
    reason := "fallback"
    source := source
    fallback := fallbackKey
    message := if reasonMessage ≠ "" then some reasonMessage else meta.message }

/-- JS truthiness of `process.env.TIINGO_KEY`. -/
def tokenTruthy : Option String → Bool
  | none => false
  | some s => decide (s ≠ "")

/-- The `data` value of the envelope, one constructor per shape the handler
can produce. -/
inductive HData where
  | quoteList (qs : List Quote)
  | intradayBars (bs : List IntradayBar)
  | eodBars (bs : List EodBar)
  | emptyArr
  | stub (message : String) (symbol : String)

/-- The JSON response envelope (`warning` present only when non-empty). -/
structure ResponseBody where
  originalSymbol : String
  mappedSymbol : String
  symbol : String
  data : HData
  meta : Meta
  warning : Option String

/-- The body of an HTTP result: empty (OPTIONS), a `{ error }` object, or
the envelope. -/
inductive BodyV where
  | empty
  | errorJson (error : String)
  | envelope (b : ResponseBody)

/-- An HTTP result (headers are derived data and are not modelled). -/
structure HandlerResult where
  statusCode : Nat
  body : BodyV

/-- The inbound Netlify event: HTTP method and query-string parameters. -/
structure HandlerEvent where
  httpMethod : String
  symbol : Option String
  kind : Option String
  limit : Option String
  interval : Option String

/-- Outcome of one `fetch` + `response.json()` pair: either of the two
awaits throws, or a parsed body arrives with `ok`/`status`. -/
inductive FetchOutcome where
  | throwErr (msg : String)
  | success (ok : Bool) (status : Nat) (body : Json)

/-- The ambient effects a single handler invocation can observe. -/
structure HandlerCtx where
  token : Option String
  fetch : FetchOutcome
  rand : Nat → ℚ
  sinO : ℚ → ℚ
  nowMs : Int
  toIso : Int → String
  nowIso : String

/-- `String(...)` coercion of an error-detail JSON value.  Only string
details occur in practice; the rendering of other shapes is abstracted. -/
def jsonToString : Json → String
  | .str s => s
  | _ => "[non-string detail]"

/-- The `detail || rawData.message || rawData.error || ""` extraction in the
intraday error path. -/
def intradayErrDetail (rawData : Json) (status : Nat) : String :=
  let detail : Option Json :=
    match rawData with
    | .obj _ =>
      if jsTruthyOpt (jsField rawData "detail") then jsField rawData "detail"
      else if jsTruthyOpt (jsField rawData "message") then
        jsField rawData "message"
      else if jsTruthyOpt (jsField rawData "error") then jsField rawData "error"
      else none
    | _ => none
  match detail with
  | some j => if jsonToString j ≠ "" then jsonToString j
              else "Tiingo API error: " ++ toString status
  | none => "Tiingo API error: " ++ toString status

/-- Result of one `switch` branch: the data, the updated meta, the warning
string (`""` = unset) and how many upstream fetches were issued. -/
structure BranchOut where
  data : HData
  meta : Meta
  warning : String
  fetches : Nat

/-- The `intraday_latest` branch of the handler's `switch`. -/
def branchIntradayLatest (ctx : HandlerCtx) (meta : Meta)
    (rawSymbol mappedSymbol : String) : BranchOut :=
  let step : Option Quote × Meta × String × Nat :=
    if tokenTruthy ctx.token then
      match ctx.fetch with
      | .throwErr msg =>
        (none, applyFallback meta "fallback" "intraday_latest" msg,
         "Live data unavailable. Showing fallback quote.", 1)
      | .success ok status rawData =>
        if !ok then
          (none, applyFallback meta "fallback" "intraday_latest"
             ("Tiingo API error: " ++ toString status),
           "Live data unavailable. Showing fallback quote.", 1)
        else
          let quote : Option Json :=
            match rawData with
            | .arr items => items.head?
            | j => some j
          if jsTruthyOpt quote ∧
              (jsTruthyOpt (jsFieldOpt quote "last") ∨
               jsTruthyOpt (jsFieldOpt quote "tngoLast")) then
            (some (buildQuoteFromTiingo quote mappedSymbol rawSymbol ctx.nowIso),
             meta, "", 1)
          else
            (none, applyFallback meta "fallback" "intraday_latest"
               "No quote returned",
             "Live data unavailable. Showing fallback quote.", 1)
    else
      (none, applyFallback meta "mock" "missing-token" "Token not configured",
       "Tiingo token missing. Showing sample data.", 0)
  let quoteData : Quote :=
    match step.1 with
    | some q => q
    | none => generateFallbackQuote rawSymbol mappedSymbol ctx.rand ctx.nowIso
  ⟨.quoteList [quoteData], step.2.1, step.2.2.1, step.2.2.2⟩

/-- The `intraday` branch of the handler's `switch`. -/
def branchIntraday (ev : HandlerEvent) (ctx : HandlerCtx) (meta : Meta)
    (rawSymbol mappedSymbol : String) : BranchOut :=
  let limit : Int := min (orNonzero (jsParseInt (ev.limit.getD "150")) 150) 300
  let intervalMinutes : Int := parseIntervalMinutes (some (ev.interval.getD "5min"))
  let step : Option (List IntradayBar) × Meta × String × Nat :=
    if tokenTruthy ctx.token then
      match ctx.fetch with
      | .throwErr msg =>
        (none, applyFallback meta "fallback" "intraday" msg,
         "Live intraday data unavailable. Showing fallback series.", 1)
      | .success ok status rawData =>
        if !ok then
          (none, applyFallback meta "fallback" "intraday"
             (intradayErrDetail rawData status),
           "Live intraday data unavailable. Showing fallback series.", 1)
        else
          match rawData with
          | .arr (x :: xs) =>
            (some ((jsSlice (x :: xs) (-limit)).map (fun item =>
               { timestamp := jsField item "date"
                 «open» := ensureNumber (jsField item "open") 0
                 high := ensureNumber (jsField item "high") 0
                 low := ensureNumber (jsField item "low") 0
                 close := ensureNumber (jsField item "close") 0
                 volume := ensureNumber (jsField item "volume") 0 })),
             meta, "", 1)
          | _ =>
            (none, applyFallback meta "fallback" "intraday"
               "No intraday data returned.",
             "Live intraday data unavailable. Showing fallback series.", 1)
    else
      (none, applyFallback meta "mock" "missing-token" "Token not configured",
       "Tiingo token missing. Showing sample intraday series.", 0)
  let rows : List IntradayBar :=
    match step.1 with
    | some (r :: rs) => r :: rs
    | _ => generateFallbackIntradaySeries rawSymbol mappedSymbol limit
        intervalMinutes ctx.rand ctx.sinO ctx.nowMs ctx.toIso
  ⟨.intradayBars rows, step.2.1, step.2.2.1, step.2.2.2⟩

/-- The `eod` branch of the handler's `switch`. -/
def branchEod (ev : HandlerEvent) (ctx : HandlerCtx) (meta : Meta)
    (rawSymbol mappedSymbol : String) : BranchOut :=
  let limit : Int := min (orNonzero (jsParseInt (ev.limit.getD "180")) 180) 365
  let step : Option (List EodBar) × Meta × String × Nat :=
    if tokenTruthy ctx.token then
      match ctx.fetch with
      | .throwErr msg =>
        (none, applyFallback meta "eod-fallback" "eod" msg,
         "Live EOD data unavailable. Showing fallback series.", 1)
      | .success ok status rawData =>
        match rawData, ok with
        | .arr (x :: xs), true =>
          (some ((jsSlice (x :: xs) (-limit)).map (fun item =>
             { date := jsField item "date"
               «open» := ensureNumber (jsField item "open") 0
               high := ensureNumber (jsField item "high") 0
               low := ensureNumber (jsField item "low") 0
               close := ensureNumber (jsField item "close") 0
               volume := ensureNumber (jsField item "volume") 0
               adjClose := ensureNumber
                 (jsCoalesce (jsField item "adjClose") (jsField item "close")) 0 })),
           meta, "", 1)
        | _, _ =>
          (none, applyFallback meta "eod-fallback" "eod"
             ("Tiingo API error: " ++ toString status),
           "Live EOD data unavailable. Showing fallback series.", 1)
    else
      (none, applyFallback meta "mock" "missing-token" "Token not configured",
       "Tiingo token missing. Showing sample EOD series.", 0)
  match step.1 with
  | some (r :: rs) => ⟨.eodBars (r :: rs), step.2.1, step.2.2.1, step.2.2.2⟩
  | _ =>
    let meta1 := step.2.1
    let meta2 := if meta1.source ≠ "mock" then
        { meta1 with source := "eod-fallback" } else meta1
    ⟨.eodBars (generateFallbackDailySeries rawSymbol mappedSymbol limit
        ctx.rand ctx.sinO ctx.nowMs ctx.toIso), meta2, step.2.2.1, step.2.2.2⟩

/-- The kinds sharing the empty-array branch of the `switch`. -/
def docKinds : List String := ["news", "documents", "actions", "filings", "statements"]

/-- The shared `news`/`documents`/`actions`/`filings`/`statements` branch. -/
def branchDocs (ctx : HandlerCtx) (meta : Meta) : BranchOut :=
  if tokenTruthy ctx.token then ⟨.emptyArr, meta, "", 0⟩
  else
    ⟨.emptyArr,
     { meta with
        source := "mock"
        reason := "fallback"
        fallback := if meta.fallback ≠ "" then meta.fallback else "missing-token" },
     "", 0⟩

/-- The `default` branch of the `switch`. -/
def branchDefault (meta : Meta) (kind rawSymbol warning : String) : BranchOut :=
  ⟨.stub (kind ++ " data not implemented") rawSymbol,
   { meta with
      source := "mock"
      reason := "unsupported"
      fallback := if meta.fallback ≠ "" then meta.fallback else "unsupported-kind" },
   if warning ≠ "" then warning else "Requested data type is not implemented.",
   0⟩

/-- The `switch (kind)` dispatch. -/
def routeKind (ev : HandlerEvent) (ctx : HandlerCtx) (meta : Meta)
    (kind rawSymbol mappedSymbol : String) : BranchOut :=
  if kind = "intraday_latest" then
    branchIntradayLatest ctx meta rawSymbol mappedSymbol
  else if kind = "intraday" then
    branchIntraday ev ctx meta rawSymbol mappedSymbol
  else if kind = "eod" then
    branchEod ev ctx meta rawSymbol mappedSymbol
  else if kind ∈ docKinds then
    branchDocs ctx meta
  else
    branchDefault meta kind rawSymbol ""

/-- The Netlify function `handler(event)` (part of the `tiingo-data`
function).  Returns the HTTP result and the number of upstream fetches
issued. -/
def handler (ev : HandlerEvent) (ctx : HandlerCtx) : HandlerResult × Nat :=
  if ev.httpMethod = "OPTIONS" then (⟨200, .empty⟩, 0)
  else
    let rawSymbol := jsTrim (ev.symbol.getD "")
    let kind := normaliseKind ev.kind
    if rawSymbol = "" then
      (⟨400, .errorJson "Missing symbol parameter"⟩, 0)
    else
      let mappedSymbol := mapSymbolForAPI rawSymbol
      let meta : Meta :=
        { currency := detectCurrency mappedSymbol
          exchange := detectExchange mappedSymbol
          timestamp := ctx.nowIso
          kind := kind
          source := "live"
          fallback := ""
          reason := "ok"
          chosenKey := if tokenTruthy ctx.token then "env:TIINGO_KEY" else ""
          tokenPreview := previewToken ctx.token
          message := none }
      let out := routeKind ev ctx meta kind rawSymbol mappedSymbol
      (⟨200, .envelope
        { originalSymbol := jsToUpper rawSymbol
          mappedSymbol := mappedSymbol
          symbol := jsToUpper rawSymbol
          data := out.data
          meta := out.meta
          warning := if out.warning ≠ "" then some out.warning else none }⟩,
       out.fetches)

end TiingoFn

/-! ## `tiingo-client.js` — SimpleCache and `makeRequest` -/

namespace TiingoClient

/-- A cache entry `{ value, expiresAt }`. -/
structure CacheEntry where
  value : Json
  expiresAt : Int

/-- The `Map` held by `SimpleCache`, as an association list whose lookup
matches `Map.get`. -/
abbrev CacheMap := List (String × CacheEntry)

/-- `Map.set`: replace any entry under the key and bind the new value. -/
def mapSet (m : CacheMap) (k : String) (e : CacheEntry) : CacheMap :=
  (k, e) :: m.filter (fun kv => kv.1 ≠ k)

/-- `SimpleCache.set(key, value, ttl)` at clock `now`. -/
def cacheSet (m : CacheMap) (now ttl : Int) (k : String) (v : Json) : CacheMap :=
  mapSet m k ⟨v, now + ttl⟩

/-- `SimpleCache.get(key)` at clock `now`: expired entries are deleted on
access.  Returns the value (`none` = miss) and the possibly-updated map. -/
def cacheGet (now : Int) (m : CacheMap) (k : String) : Option Json × CacheMap :=
  match m.lookup k with
  | none => (none, m)
  | some e =>
    if now > e.expiresAt then (none, m.filter (fun kv => kv.1 ≠ k))
    else (some e.value, m)

/-- Code-unit comparison of two character lists (JS string `sort` order). -/
def charsLe : List Char → List Char → Bool
  | [], _ => true
  | _ :: _, [] => false
  | a :: as, b :: bs =>
    if a.toNat < b.toNat then true
    else if b.toNat < a.toNat then false
    else charsLe as bs

/-- Insert a parameter into a key-sorted list (`Object.keys(params).sort()`). -/
def insertSorted (x : String × String) :
    List (String × String) → List (String × String)
  | [] => [x]
  | y :: ys =>
    if charsLe x.1.data y.1.data then x :: y :: ys else y :: insertSorted x ys

/-- Sort parameters by key. -/
def sortParams (ps : List (String × String)) : List (String × String) :=
  ps.foldr insertSorted []

/-- Render `key=value` pairs joined by `&`. -/
def joinParams : List (String × String) → String
  | [] => ""
  | [kv] => kv.1 ++ "=" ++ kv.2
  | kv :: rest => kv.1 ++ "=" ++ kv.2 ++ "&" ++ joinParams rest

/-- `getCacheKey(endpoint, params)`. -/
def getCacheKey (endpoint : String) (params : List (String × String)) : String :=
  endpoint ++ "?" ++ joinParams (sortParams params)

/-- Outcome of one fetch attempt: parsed JSON, a non-ok HTTP response (whose
body text feeds the error message), or a thrown network/timeout/parse
error. -/
inductive FetchAttempt where
  | success (v : Json)
  | httpError (status : Nat) (text : String)
  | netError (msg : String)

/-- The `error.message` produced by a failed attempt. -/
def attemptMessage : FetchAttempt → String
  | .success _ => ""
  | .httpError status text => "Tiingo API error " ++ toString status ++ ": " ++ text
  | .netError msg => msg

/-- The client-error test: `error.message.includes('400'|'401'|'403'|'404')`. -/
def contains4xx (msg : String) : Bool :=
  strIncludes msg "400" || strIncludes msg "401" ||
  strIncludes msg "403" || strIncludes msg "404"

/-- The `for (attempt = 0; attempt <= retries; ...)` loop of `makeRequest`:
returns the outcome, the number of attempts performed, and the list of
back-off delays slept (in order).  `fuel` is `retries - attempt`. -/
def runAttempts (retryDelay : Int) (oracle : Nat → FetchAttempt) :
    (attempt fuel : Nat) → Except String Json × Nat × List Int
  | attempt, fuel =>
    match oracle attempt with
    | .success v => (.ok v, 1, [])
    | failure =>
      let msg := attemptMessage failure
      if contains4xx msg then (.error msg, 1, [])
      else
        match fuel with
        | 0 => (.error msg, 1, [])
        | fuel' + 1 =>
          let rest := runAttempts retryDelay oracle (attempt + 1) fuel'
          (rest.1, rest.2.1 + 1, retryDelay * 2 ^ attempt :: rest.2.2)

/-- The options object accepted by `makeRequest`. -/
structure MakeOptions where
  cacheTtl : Int := 60000
  skipCache : Bool := false
  retries : Nat := 3

/-- Result of a `makeRequest` call: the value or thrown error, the cache
map afterwards, the number of fetch attempts issued and the back-off sleeps
performed.  (The rate limiter only delays execution and cannot change any
of these, so its state is not modelled.) -/
structure MRResult where
  result : Except String Json
  cache : CacheMap
  fetches : Nat
  sleeps : List Int

/-- `makeRequest(endpoint, params, options)` at clock `now`, with the
fetch outcomes supplied per attempt by `oracle`. -/
def makeRequest (enableCache : Bool) (retryDelay : Int) (endpoint : String)
    (params : List (String × String)) (opts : MakeOptions) (now : Int)
    (oracle : Nat → FetchAttempt) (st : CacheMap) : MRResult :=
  let cacheKey := getCacheKey endpoint params
  let looked : Option Json × CacheMap :=
    if enableCache ∧ ¬opts.skipCache then cacheGet now st cacheKey
    else (none, st)
  let proceed : CacheMap → MRResult := fun stc =>
    let att := runAttempts retryDelay oracle 0 opts.retries
    match att.1 with
    | .ok data =>
      ⟨.ok data,
       if enableCache ∧ ¬opts.skipCache then
         cacheSet stc now opts.cacheTtl cacheKey data
       else stc,
       att.2.1, att.2.2⟩
    | .error e => ⟨.error e, stc, att.2.1, att.2.2⟩
  match looked.1 with
  | some v => if jsTruthy v then ⟨.ok v, looked.2, 0, []⟩ else proceed looked.2
  | none => proceed looked.2

end TiingoClient

/-! ## Rounding helper lemmas -/

theorem roundMono {x y : ℚ} (h : x ≤ y) : round x ≤ round y := by
  rw [round_eq, round_eq]
  exact Int.floor_mono (by linarith)

/-- A value of the form `k/100` (the image of `toFixed(2)`). -/
def IsCent (x : ℚ) : Prop := ∃ k : ℤ, x = (k : ℚ) / 100

theorem rnd2_isCent (x : ℚ) : IsCent (rnd2 x) := ⟨round (x * 100), rfl⟩

theorem isCent_max {x y : ℚ} (hx : IsCent x) (hy : IsCent y) :
    IsCent (max x y) := by
  rcases max_choice x y with h | h <;> rw [h] <;> assumption

theorem isCent_min {x y : ℚ} (hx : IsCent x) (hy : IsCent y) :
    IsCent (min x y) := by
  rcases min_choice x y with h | h <;> rw [h] <;> assumption

theorem cent_le_rnd2 {x y : ℚ} (hx : IsCent x) (h : x ≤ y) : x ≤ rnd2 y := by
  obtain ⟨k, rfl⟩ := hx
  have h100 : (k : ℚ) ≤ y * 100 := by
    rw [div_le_iff₀ (by norm_num : (0:ℚ) < 100)] at h
    linarith
  have hr : k ≤ round (y * 100) := by
    calc k = round ((k : ℚ)) := (round_intCast k).symm
    _ ≤ round (y * 100) := roundMono h100
  unfold rnd2
  have : ((k : ℚ)) ≤ ((round (y * 100) : ℤ) : ℚ) := by exact_mod_cast hr
  linarith

theorem rnd2_le_cent {x y : ℚ} (hx : IsCent x) (h : y ≤ x) : rnd2 y ≤ x := by
  obtain ⟨k, rfl⟩ := hx
  have h100 : y * 100 ≤ (k : ℚ) := by
    rw [le_div_iff₀ (by norm_num : (0:ℚ) < 100)] at h
    linarith
  have hr : round (y * 100) ≤ k := by
    calc round (y * 100) ≤ round ((k : ℚ)) := roundMono h100
    _ = k := round_intCast k
  unfold rnd2
  have : ((round (y * 100) : ℤ) : ℚ) ≤ ((k : ℚ)) := by exact_mod_cast hr
  linarith

theorem rnd2_nonneg {y : ℚ} (h : 0 ≤ y) : 0 ≤ rnd2 y := by
  have h0 : IsCent (0 : ℚ) := ⟨0, by norm_num⟩
  simpa using cent_le_rnd2 h0 h

/-- Evaluate `rnd2` at a concrete argument from floor bounds. -/
theorem rnd2_eq_of_bounds {x : ℚ} {k : ℤ} (h1 : (k : ℚ) ≤ x * 100 + 1 / 2)
    (h2 : x * 100 + 1 / 2 < k + 1) : rnd2 x = (k : ℚ) / 100 := by
  unfold rnd2
  rw [round_eq, Int.floor_eq_iff.mpr ⟨h1, h2⟩]

/-! ## Claims C4 and C5 -/

/-- Claim C4, counterexample: in the request handler, an absent `kind`
canonicalizes to `"intraday_latest"`, not `"eod"`, and `"quote"` stays
`"quote"` instead of mapping to `"intraday_latest"`. -/
theorem C4_counterexample :
    TiingoFn.normaliseKind none = "intraday_latest" ∧
    TiingoFn.normaliseKind (some "quote") = "quote" ∧
    ("intraday_latest" : String) ≠ "eod" ∧
    ("quote" : String) ≠ "intraday_latest" := by
  refine ⟨by decide, by decide, by decide, by decide⟩

/-- Claim C4 (amended): the mock-data loader canonicalizes kinds through the
alias table — `quote`/`quotes` map to `intraday_latest`, an absent kind
defaults to `eod`, an unrecognized kind maps to `eod` — while the request
handler lower-cases and trims the kind, defaults an absent or empty kind to
`intraday_latest`, and passes unrecognized kind strings through unchanged. -/
theorem C4_kind_canonicalization :
    MockTiingo.normaliseKind (some "quote") = "intraday_latest" ∧
    MockTiingo.normaliseKind (some "quotes") = "intraday_latest" ∧
    MockTiingo.normaliseKind none = "eod" ∧
    (∀ s : String, MockTiingo.KIND_ALIASES.lookup
        (jsToLower (if s ≠ "" then s else "eod")) = none →
      MockTiingo.normaliseKind (some s) = "eod") ∧
    TiingoFn.normaliseKind none = "intraday_latest" ∧
    (∀ s : String, jsToLower (jsTrim s) ≠ "" →
      TiingoFn.normaliseKind (some s) = jsToLower (jsTrim s)) := by
  refine ⟨by decide, by decide, by decide, ?_, by decide, ?_⟩
  · intro s h
    unfold MockTiingo.normaliseKind
    simp only [h, Option.getD_none]
  · intro s h
    unfold TiingoFn.normaliseKind
    simp only [Option.getD_some, if_pos h]

/-- Witness for C4: a concrete unrecognized kind falls back to `eod` in the
mock loader, and the handler lower-cases/trims a concrete recognized kind. -/
theorem C4_witness :
    MockTiingo.normaliseKind (some "garbage") = "eod" ∧
    TiingoFn.normaliseKind (some " EOD ") = "eod" := by
  constructor
  · exact C4_kind_canonicalization.2.2.2.1 "garbage" (by decide)
  · have h := C4_kind_canonicalization.2.2.2.2.2 " EOD " (by decide)
    simpa using h

theorem fallbackIntradayAux_length (rand : Nat → ℚ) (sinO : ℚ → ℚ)
    (toIso : Int → String) (nowMs intervalMinutes limit : Int) :
    ∀ (fuel j : Nat) (price : ℚ),
      (TiingoFn.fallbackIntradayAux rand sinO toIso nowMs intervalMinutes
        limit j fuel price).length = fuel := by
  intro fuel
  induction fuel with
  | zero => intro j price; rfl
  | succ n ih =>
    intro j price
    rw [TiingoFn.fallbackIntradayAux]
    simpa using ih (j + 1) _

theorem fallbackDailyAux_length (rand : Nat → ℚ) (sinO : ℚ → ℚ)
    (toIso : Int → String) (nowMs limit : Int) :
    ∀ (fuel j : Nat) (price : ℚ),
      (TiingoFn.fallbackDailyAux rand sinO toIso nowMs limit j fuel
        price).length = fuel := by
  intro fuel
  induction fuel with
  | zero => intro j price; rfl
  | succ n ih =>
    intro j price
    rw [TiingoFn.fallbackDailyAux]
    simpa using ih (j + 1) _

/-- Claim C5: for every positive `limit` up to the per-kind hard maximum the
synthetic series generators emit exactly `limit` bars, and the handler's
limit clamp takes the parsed positive value when within the maximum and
falls back to the per-kind default (150 intraday / 180 EOD) when the
parameter is absent or non-numeric. -/
theorem C5_series_length_and_clamp :
    (∀ (os ms : String) (limit intervalMinutes : Int) (rand : Nat → ℚ)
        (sinO : ℚ → ℚ) (nowMs : Int) (toIso : Int → String),
      0 < limit → limit ≤ 300 →
      ((TiingoFn.generateFallbackIntradaySeries os ms limit intervalMinutes
          rand sinO nowMs toIso).length : Int) = limit) ∧
    (∀ (os ms : String) (limit : Int) (rand : Nat → ℚ) (sinO : ℚ → ℚ)
        (nowMs : Int) (toIso : Int → String),
      0 < limit → limit ≤ 365 →
      ((TiingoFn.generateFallbackDailySeries os ms limit rand sinO nowMs
          toIso).length : Int) = limit) ∧
    (∀ (s : String) (n : Int), jsParseInt s = some n → 0 < n → n ≤ 300 →
      min (orNonzero (jsParseInt s) 150) 300 = n) ∧
    (∀ (s : String) (n : Int), jsParseInt s = some n → 0 < n → n ≤ 365 →
      min (orNonzero (jsParseInt s) 180) 365 = n) ∧
    min (orNonzero (jsParseInt ((none : Option String).getD "150")) 150) 300 = 150 ∧
    min (orNonzero (jsParseInt ((none : Option String).getD "180")) 180) 365 = 180 ∧
    min (orNonzero (jsParseInt "not-a-number") 150) 300 = 150 ∧
    min (orNonzero (jsParseInt "not-a-number") 180) 365 = 180 := by
  refine ⟨?_, ?_, ?_, ?_, by decide, by decide, by decide, by decide⟩
  · intro os ms limit intervalMinutes rand sinO nowMs toIso hpos hle
    unfold TiingoFn.generateFallbackIntradaySeries
    rw [fallbackIntradayAux_length]
    exact Int.toNat_of_nonneg (le_of_lt hpos)
  · intro os ms limit rand sinO nowMs toIso hpos hle
    unfold TiingoFn.generateFallbackDailySeries
    rw [fallbackDailyAux_length]
    exact Int.toNat_of_nonneg (le_of_lt hpos)
  · intro s n h hpos hle
    rw [h]
    show (if n = 0 then (150 : Int) else n) ⊓ 300 = n
    rw [if_neg (by omega)]
    omega
  · intro s n h hpos hle
    rw [h]
    show (if n = 0 then (180 : Int) else n) ⊓ 365 = n
    rw [if_neg (by omega)]
    omega

/-- Witness for C5: a concrete synthetic intraday series of length 5, and
the clamp at the concrete in-range parameter `"7"`. -/
theorem C5_witness :
    ((TiingoFn.generateFallbackIntradaySeries "AAPL" "AAPL" 5 5
        (fun _ => 0) (fun _ => 0) 0 (fun _ => "")).length : Int) = 5 ∧
    min (orNonzero (jsParseInt "7") 150) 300 = 7 := by
  constructor
  · exact C5_series_length_and_clamp.1 "AAPL" "AAPL" 5 5 (fun _ => 0)
      (fun _ => 0) 0 (fun _ => "") (by norm_num) (by norm_num)
  · exact C5_series_length_and_clamp.2.2.1 "7" 7 (by decide) (by norm_num)
      (by norm_num)

theorem basePrice_pos (key : String) :
    0 < (TiingoFn.BASE_PRICE_MAP.lookup key).getD 100 := by
  have hall : ∀ p ∈ TiingoFn.BASE_PRICE_MAP, (0 : ℚ) < p.2 := by
    intro p hp
    unfold TiingoFn.BASE_PRICE_MAP at hp
    fin_cases hp <;> norm_num
  have : ∀ (l : List (String × ℚ)), (∀ p ∈ l, (0 : ℚ) < p.2) →
      0 < (l.lookup key).getD 100 := by
    intro l
    induction l with
    | nil => intro _; norm_num [List.lookup]
    | cons p ps ih =>
      intro h
      rw [List.lookup]
      split
      · simpa using h p (by simp)
      · exact ih (fun q hq => h q (List.mem_cons_of_mem p hq))
  exact this _ hall

theorem highLow_bound {openV lastV r3 r4 : ℚ} (hc1 : IsCent openV)
    (hc2 : IsCent lastV) (ho : 0 ≤ openV) (hl : 0 ≤ lastV)
    (h3 : 0 ≤ r3) (h4 : 0 ≤ r4) :
    max openV lastV ≤ rnd2 (max openV lastV * (1 + r3 * 0.01)) ∧
    rnd2 (min openV lastV * (1 - r4 * 0.01)) ≤ min openV lastV := by
  have hM : 0 ≤ max openV lastV := le_max_of_le_left ho
  have hm : 0 ≤ min openV lastV := le_min ho hl
  constructor
  · refine cent_le_rnd2 (isCent_max hc1 hc2) ?_
    nlinarith
  · refine rnd2_le_cent (isCent_min hc1 hc2) ?_
    nlinarith

/-- The provider quote used to refute the unconditional form of C6. -/
def providerQuoteC6 : Json :=
  .obj [("last", .num 100), ("open", .num 120), ("high", .num 50),
        ("low", .num 130)]

/-- Claim C6, counterexample: a quote derived from a provider object whose
`high` field is below its `open` violates `high ≥ max(open, last)` — the
provider's `high`/`low` are passed through unchecked. -/
theorem C6_counterexample :
    (TiingoFn.buildQuoteFromTiingo (some providerQuoteC6) "AAPL" "AAPL"
        "t").high <
      max (TiingoFn.buildQuoteFromTiingo (some providerQuoteC6) "AAPL" "AAPL"
            "t").«open»
        (TiingoFn.buildQuoteFromTiingo (some providerQuoteC6) "AAPL" "AAPL"
            "t").last := by
  show (50 : ℚ) < max 120 100
  rw [max_eq_left (by norm_num : (100 : ℚ) ≤ 120)]
  norm_num

/-- Claim C6 (amended): every fallback-generated quote satisfies
`high ≥ max(open, last)` and `low ≤ min(open, last)`; a quote derived from a
provider object satisfies the invariant whenever the provider's `high` and
`low` fields are absent or non-numeric (they then default to
`max(open, last)` / `min(open, last)`), but provider-supplied values are
passed through unchecked. -/
theorem C6_quote_invariant :
    (∀ (os ms nowIso : String) (rand : Nat → ℚ),
      (∀ i, 0 ≤ rand i ∧ rand i < 1) →
      max (TiingoFn.generateFallbackQuote os ms rand nowIso).«open»
          (TiingoFn.generateFallbackQuote os ms rand nowIso).last ≤
        (TiingoFn.generateFallbackQuote os ms rand nowIso).high ∧
      (TiingoFn.generateFallbackQuote os ms rand nowIso).low ≤
        min (TiingoFn.generateFallbackQuote os ms rand nowIso).«open»
          (TiingoFn.generateFallbackQuote os ms rand nowIso).last) ∧
    (∀ (quote : Option Json) (ms os nowIso : String),
      jsToNumber (TiingoFn.jsFieldOpt quote "high") = none →
      jsToNumber (TiingoFn.jsFieldOpt quote "low") = none →
      max (TiingoFn.buildQuoteFromTiingo quote ms os nowIso).«open»
          (TiingoFn.buildQuoteFromTiingo quote ms os nowIso).last ≤
        (TiingoFn.buildQuoteFromTiingo quote ms os nowIso).high ∧
      (TiingoFn.buildQuoteFromTiingo quote ms os nowIso).low ≤
        min (TiingoFn.buildQuoteFromTiingo quote ms os nowIso).«open»
          (TiingoFn.buildQuoteFromTiingo quote ms os nowIso).last) := by
  constructor
  · intro os ms nowIso rand hrand
    have hbase := basePrice_pos (jsToUpper
      (if ms ≠ "" then ms else if os ≠ "" then os else "DEFAULT"))
    have hlastArg : 0 ≤ ((TiingoFn.BASE_PRICE_MAP.lookup (jsToUpper
        (if ms ≠ "" then ms else if os ≠ "" then os else "DEFAULT"))).getD 100) *
        (0.99 + rand 0 * 0.02) := by
      nlinarith [(hrand 0).1]
    have hlast : 0 ≤ rnd2 (((TiingoFn.BASE_PRICE_MAP.lookup (jsToUpper
        (if ms ≠ "" then ms else if os ≠ "" then os else "DEFAULT"))).getD 100) *
        (0.99 + rand 0 * 0.02)) := rnd2_nonneg hlastArg
    have hopen : 0 ≤ rnd2 (rnd2 (((TiingoFn.BASE_PRICE_MAP.lookup (jsToUpper
        (if ms ≠ "" then ms else if os ≠ "" then os else "DEFAULT"))).getD 100) *
        (0.99 + rand 0 * 0.02)) * (0.995 + rand 2 * 0.01)) := by
      refine rnd2_nonneg ?_
      nlinarith [(hrand 2).1]
    exact highLow_bound (rnd2_isCent _) (rnd2_isCent _) hopen hlast
      (hrand 3).1 (hrand 4).1
  · intro quote ms os nowIso hh hl
    unfold TiingoFn.buildQuoteFromTiingo TiingoFn.ensureNumber
    simp only [hh, hl, Option.getD_none]
    exact ⟨le_refl _, le_refl _⟩

/-- Witness for C6: the invariant at a concrete fallback quote and at a
concrete provider quote lacking `high`/`low`. -/
theorem C6_witness :
    (max (TiingoFn.generateFallbackQuote "XYZ" "" (fun _ => 1/2) "t").«open»
        (TiingoFn.generateFallbackQuote "XYZ" "" (fun _ => 1/2) "t").last ≤
      (TiingoFn.generateFallbackQuote "XYZ" "" (fun _ => 1/2) "t").high) ∧
    (max (TiingoFn.buildQuoteFromTiingo (some (.obj [("last", .num 100)]))
          "A" "A" "t").«open»
        (TiingoFn.buildQuoteFromTiingo (some (.obj [("last", .num 100)]))
          "A" "A" "t").last ≤
      (TiingoFn.buildQuoteFromTiingo (some (.obj [("last", .num 100)]))
          "A" "A" "t").high) := by
  constructor
  · exact (C6_quote_invariant.1 "XYZ" "" "t" (fun _ => 1/2)
      (fun i => by norm_num)).1
  · exact (C6_quote_invariant.2 (some (.obj [("last", .num 100)])) "A" "A" "t"
      rfl rfl).1

theorem priceOf_ne_zero {record : Json} {p : ℚ}
    (h : MockTiingo.priceOf record = some p) : p ≠ 0 := by
  unfold MockTiingo.priceOf at h
  split at h
  next q heq =>
    by_cases hq : q ≠ 0
    · rw [if_pos hq] at h
      injection h with h2
      exact h2 ▸ hq
    · rw [if_neg hq] at h
      cases h
  next => cases h

/-- The record used to refute the exact-arithmetic form of C7. -/
def recC7 : Json := .obj [("quote", .obj [("price", .num (10001 / 100))])]

/-- Claim C7, counterexample: for a quote price of `100.01` the snapshot's
`fairValue` is the 2-decimal rounding `105.01`, not `price * 1.05 =
105.0105` — the formulas hold only up to `toFixed` rounding. -/
theorem C7_counterexample :
    (MockTiingo.computeValuationSnapshot recC7 "T" "t").price =
      some ((10001 : ℚ) / 100) ∧
    (MockTiingo.computeValuationSnapshot recC7 "T" "t").valuation.fairValue =
      some ((10501 : ℚ) / 100) ∧
    ((10501 : ℚ) / 100) ≠ ((10001 : ℚ) / 100) * 1.05 := by
  have h1 : jsToNumber (jsCoalesce (jsField (MockTiingo.quoteOf recC7) "price")
      (jsCoalesce (jsField (MockTiingo.quoteOf recC7) "last")
        (jsCoalesce (jsField (MockTiingo.quoteOf recC7) "close")
          (some (.num 0))))) = some ((10001 : ℚ) / 100) := rfl
  have hp : MockTiingo.priceOf recC7 = some ((10001 : ℚ) / 100) := by
    unfold MockTiingo.priceOf
    rw [h1]
    norm_num
  have hfv : rnd2 (((10001 : ℚ) / 100) * 1.05) = (10501 : ℚ) / 100 := by
    have := rnd2_eq_of_bounds
      (x := ((10001 : ℚ) / 100) * 1.05) (k := (10501 : ℤ))
      (by norm_num) (by norm_num)
    simpa using this
  refine ⟨?_, ?_, by norm_num⟩
  · show MockTiingo.priceOf recC7 = _
    exact hp
  · show (MockTiingo.priceOf recC7).map (fun p => rnd2 (p * 1.05)) = _
    rw [hp]
    show some (rnd2 (((10001 : ℚ) / 100) * 1.05)) = _
    rw [hfv]

/-- The record giving the spec's concrete valuation instance
(price 100, eps 5). -/
def rec100 : Json :=
  .obj [("quote", .obj [("price", .num 100)]),
        ("fundamentals",
          .obj [("metrics", .obj [("earningsPerShare", .num 5)])])]

theorem rnd2_int_eval {x : ℚ} {k : ℤ} (h1 : (k : ℚ) ≤ x * 100 + 1 / 2)
    (h2 : x * 100 + 1 / 2 < k + 1) {y : ℚ} (hy : (k : ℚ) / 100 = y) :
    rnd2 x = y := by
  rw [rnd2_eq_of_bounds h1 h2, hy]

/-- Claim C7 (amended): the snapshot's derived fields equal the spec's
formulas with each `toFixed` rounding applied — `fairValue` and
`suggestedEntry` round `price*1.05` / `price*0.95` to 2 decimals, `upside`
rounds `fairValue/price - 1` to 4 decimals, bull/base/bear round
`fairValue*1.15 / fairValue / fairValue*0.85` — each ratio field is `null`
when its divisor is zero or absent, and the concrete instance
(price 100, eps 5) yields pe 20.00, fairValue 105.00, suggestedEntry 95.00
and bull 120.75 exactly. -/
theorem C7_valuation_snapshot :
    (∀ (record : Json) (sym now : String) (p : ℚ),
      MockTiingo.priceOf record = some p →
      (MockTiingo.computeValuationSnapshot record sym now).valuation.fairValue
          = some (rnd2 (p * 1.05)) ∧
      (MockTiingo.computeValuationSnapshot record sym
          now).valuation.suggestedEntry = some (rnd2 (p * 0.95)) ∧
      (MockTiingo.computeValuationSnapshot record sym now).valuation.base
          = some (rnd2 (p * 1.05)) ∧
      (rnd2 (p * 1.05) ≠ 0 →
        (MockTiingo.computeValuationSnapshot record sym now).valuation.upside
            = some (rnd4 (rnd2 (p * 1.05) / p - 1)) ∧
        (MockTiingo.computeValuationSnapshot record sym now).valuation.bull
            = some (rnd2 (rnd2 (p * 1.05) * 1.15)) ∧
        (MockTiingo.computeValuationSnapshot record sym now).valuation.bear
            = some (rnd2 (rnd2 (p * 1.05) * 0.85)))) ∧
    (∀ (record : Json) (sym now : String),
      (MockTiingo.epsOf record = 0 →
        (MockTiingo.computeValuationSnapshot record sym now).valuation.pe
          = none) ∧
      (MockTiingo.revenuePerShareOf record = none →
        (MockTiingo.computeValuationSnapshot record sym
          now).valuation.priceToSales = none) ∧
      (MockTiingo.bookValuePerShareOf record = 0 →
        (MockTiingo.computeValuationSnapshot record sym
          now).valuation.priceToBook = none) ∧
      (MockTiingo.fcfPerShareOf record = none →
        (MockTiingo.computeValuationSnapshot record sym
          now).valuation.priceToFcf = none)) ∧
    ((MockTiingo.computeValuationSnapshot rec100 "T" "t").valuation.pe
        = some 20 ∧
      (MockTiingo.computeValuationSnapshot rec100 "T" "t").valuation.fairValue
          = some 105 ∧
      (MockTiingo.computeValuationSnapshot rec100 "T"
          "t").valuation.suggestedEntry = some 95 ∧
      (MockTiingo.computeValuationSnapshot rec100 "T" "t").valuation.bull
          = some ((483 : ℚ) / 4)) := by
  have hmap : ∀ (record : Json) (p : ℚ) (c : ℚ),
      MockTiingo.priceOf record = some p →
      (MockTiingo.priceOf record).map (fun q => rnd2 (q * c))
        = some (rnd2 (p * c)) := by
    intro record p c h
    rw [h]
    rfl
  refine ⟨?_, ?_, ?_⟩
  · intro record sym now p h
    have hp0 := priceOf_ne_zero h
    refine ⟨hmap record p _ h, hmap record p _ h, hmap record p _ h, ?_⟩
    intro hfv
    refine ⟨?_, ?_, ?_⟩
    · show (if MockTiingo.numTruthy
            ((MockTiingo.priceOf record).map (fun q => rnd2 (q * 1.05))) ∧
          MockTiingo.numTruthy (MockTiingo.priceOf record) then
          some (rnd4 ((((MockTiingo.priceOf record).map
              (fun q => rnd2 (q * 1.05))).getD 0) /
            ((MockTiingo.priceOf record).getD 0) - 1))
        else none) = some (rnd4 (rnd2 (p * 1.05) / p - 1))
      rw [hmap record p _ h, h]
      rw [if_pos ⟨by simpa [MockTiingo.numTruthy] using hfv,
        by simpa [MockTiingo.numTruthy] using hp0⟩]
      rfl
    · show (if MockTiingo.numTruthy
            ((MockTiingo.priceOf record).map (fun q => rnd2 (q * 1.05))) then
          some (rnd2 ((((MockTiingo.priceOf record).map
              (fun q => rnd2 (q * 1.05))).getD 0) * 1.15))
        else none) = some (rnd2 (rnd2 (p * 1.05) * 1.15))
      rw [hmap record p _ h]
      rw [if_pos (by simpa [MockTiingo.numTruthy] using hfv)]
      rfl
    · show (if MockTiingo.numTruthy
            ((MockTiingo.priceOf record).map (fun q => rnd2 (q * 1.05))) then
          some (rnd2 ((((MockTiingo.priceOf record).map
              (fun q => rnd2 (q * 1.05))).getD 0) * 0.85))
        else none) = some (rnd2 (rnd2 (p * 1.05) * 0.85))
      rw [hmap record p _ h]
      rw [if_pos (by simpa [MockTiingo.numTruthy] using hfv)]
      rfl
  · intro record sym now
    refine ⟨?_, ?_, ?_, ?_⟩
    · intro h
      show (if MockTiingo.epsOf record ≠ 0 then
          some (rnd2 (((MockTiingo.priceOf record).getD 0) /
            MockTiingo.epsOf record))
        else none) = none
      rw [h]
      simp
    · intro h
      show (match MockTiingo.revenuePerShareOf record with
        | some r => some (rnd2 (((MockTiingo.priceOf record).getD 0) / r))
        | none => none) = none
      rw [h]
    · intro h
      show (if MockTiingo.bookValuePerShareOf record ≠ 0 then
          some (rnd2 (((MockTiingo.priceOf record).getD 0) /
            MockTiingo.bookValuePerShareOf record))
        else none) = none
      rw [h]
      simp
    · intro h
      show (match MockTiingo.fcfPerShareOf record with
        | some r => some (rnd2 (((MockTiingo.priceOf record).getD 0) / r))
        | none => none) = none
      rw [h]
  · have hp : MockTiingo.priceOf rec100 = some 100 := by
      have h1 : jsToNumber (jsCoalesce (jsField (MockTiingo.quoteOf rec100)
          "price") (jsCoalesce (jsField (MockTiingo.quoteOf rec100) "last")
            (jsCoalesce (jsField (MockTiingo.quoteOf rec100) "close")
              (some (.num 0))))) = some (100 : ℚ) := rfl
      unfold MockTiingo.priceOf
      rw [h1]
      norm_num
    have heps : MockTiingo.epsOf rec100 = 5 := rfl
    have hfv105 : rnd2 ((100 : ℚ) * 1.05) = 105 :=
      rnd2_int_eval (k := 10500) (by norm_num) (by norm_num) (by norm_num)
    refine ⟨?_, ?_, ?_, ?_⟩
    · show (if MockTiingo.epsOf rec100 ≠ 0 then
          some (rnd2 (((MockTiingo.priceOf rec100).getD 0) /
            MockTiingo.epsOf rec100))
        else none) = some 20
      rw [hp, heps, if_pos (by norm_num)]
      have : rnd2 ((some (100 : ℚ)).getD 0 / 5) = 20 :=
        rnd2_int_eval (k := 2000) (by norm_num) (by norm_num) (by norm_num)
      rw [this]
    · show (MockTiingo.priceOf rec100).map (fun q => rnd2 (q * 1.05))
          = some 105
      rw [hp]
      show some (rnd2 ((100 : ℚ) * 1.05)) = some 105
      rw [hfv105]
    · show (MockTiingo.priceOf rec100).map (fun q => rnd2 (q * 0.95))
          = some 95
      rw [hp]
      show some (rnd2 ((100 : ℚ) * 0.95)) = some 95
      rw [rnd2_int_eval (k := 9500) (y := 95) (by norm_num) (by norm_num)
        (by norm_num)]
    · show (if MockTiingo.numTruthy
            ((MockTiingo.priceOf rec100).map (fun q => rnd2 (q * 1.05))) then
          some (rnd2 ((((MockTiingo.priceOf rec100).map
              (fun q => rnd2 (q * 1.05))).getD 0) * 1.15))
        else none) = some ((483 : ℚ) / 4)
      rw [hp]
      show (if MockTiingo.numTruthy (some (rnd2 ((100 : ℚ) * 1.05))) then
          some (rnd2 ((some (rnd2 ((100 : ℚ) * 1.05))).getD 0 * 1.15))
        else none) = some ((483 : ℚ) / 4)
      rw [hfv105]
      rw [if_pos (by simp [MockTiingo.numTruthy])]
      show some (rnd2 ((105 : ℚ) * 1.15)) = some ((483 : ℚ) / 4)
      rw [rnd2_int_eval (k := 12075) (y := (483 : ℚ) / 4) (by norm_num)
        (by norm_num) (by norm_num)]

/-- Witness for C7: the rounded formulas at the concrete record with price
`100.01`, and the null-ratio clauses at a record with no fundamentals. -/
theorem C7_witness :
    (MockTiingo.computeValuationSnapshot recC7 "T" "t").valuation.suggestedEntry
        = some (rnd2 ((10001 : ℚ) / 100 * 0.95)) ∧
    (MockTiingo.computeValuationSnapshot (.obj []) "T" "t").valuation.pe
        = none := by
  constructor
  · have h1 : jsToNumber (jsCoalesce (jsField (MockTiingo.quoteOf recC7)
        "price") (jsCoalesce (jsField (MockTiingo.quoteOf recC7) "last")
          (jsCoalesce (jsField (MockTiingo.quoteOf recC7) "close")
            (some (.num 0))))) = some ((10001 : ℚ) / 100) := rfl
    have hp : MockTiingo.priceOf recC7 = some ((10001 : ℚ) / 100) := by
      unfold MockTiingo.priceOf
      rw [h1]
      norm_num
    exact (C7_valuation_snapshot.1 recC7 "T" "t" _ hp).2.1
  · exact (C7_valuation_snapshot.2.1 (.obj []) "T" "t").1 rfl

/-! ## Claim C2 -/

theorem chunkMatch_shape :
    ∀ {l m : List Char}, chunkMatch l = some m →
      24 ≤ m.length ∧ ∀ c ∈ m, isTokenChar c := by
  intro l
  induction l with
  | nil => intro m h; cases h
  | cons c rest ih =>
    intro m h
    rw [chunkMatch] at h
    dsimp only at h
    split at h
    · split at h
      next hlen =>
        injection h with h2
        subst h2
        refine ⟨hlen, ?_⟩
        intro x hx
        have h1 : x ∈ ((c :: rest).takeWhile
            isTokenChar).reverse.dropWhile (fun ch => !ch.isAlphanum) :=
          List.mem_reverse.mp hx
        have h2 : x ∈ ((c :: rest).takeWhile isTokenChar).reverse :=
          (List.dropWhile_sublist _).subset h1
        exact List.mem_takeWhile_imp (List.mem_reverse.mp h2)
      next => exact ih h
    · exact ih h

theorem extractTokenCandidate_shape {v t : String}
    (heq : extractTokenCandidate v = t) (h : t ≠ "") :
    24 ≤ t.data.length ∧ ∀ c ∈ t.data, isTokenChar c := by
  unfold extractTokenCandidate at heq
  dsimp only at heq
  split at heq
  · subst heq
    exact absurd rfl h
  · split at heq
    next hfull =>
      subst heq
      exact ⟨hfull.2.1, fun c hc => List.all_eq_true.mp hfull.1 c hc⟩
    next =>
      split at heq
      next p hfind =>
        subst heq
        have hp := List.find?_some hfind
        simp only [Bool.and_eq_true, decide_eq_true_eq, bne_iff_ne] at hp
        exact ⟨hp.1.1.2, fun c hc => List.all_eq_true.mp hp.2 c hc⟩
      next =>
        split at heq
        next m hm =>
          subst heq
          exact chunkMatch_shape hm
        next =>
          subst heq
          exact absurd rfl h

theorem buildDetail_eq_none {key value source : String}
    (h : extractTokenCandidate value = "") :
    buildDetail key value source = none := by
  unfold buildDetail
  rw [h]
  rfl

theorem buildDetail_eq_some {key value source : String}
    (h : extractTokenCandidate value ≠ "") :
    buildDetail key value source =
      some ⟨key, extractTokenCandidate value, source⟩ := by
  unfold buildDetail
  rw [if_pos (by simpa using h)]

theorem findSome?_first_hit {α β : Type} (f : α → Option β) :
    ∀ (l₁ : List α) (a : α) (l₂ : List α), (∀ x ∈ l₁, f x = none) →
    ∀ {b : β}, f a = some b → (l₁ ++ a :: l₂).findSome? f = some b := by
  intro l₁
  induction l₁ with
  | nil =>
    intro a l₂ _ b h
    rw [List.nil_append, List.findSome?_cons, h]
  | cons x xs ih =>
    intro a l₂ hnone b h
    rw [List.cons_append, List.findSome?_cons, hnone x (by simp)]
    exact ih a l₂ (fun y hy => hnone y (List.mem_cons_of_mem x hy)) h

/-- The 129-character environment value used to refute the stated
24–128 length bound of the scan stage. -/
def envC2 : EnvMap := [("SOME_VAR", String.mk (List.replicate 129 'a'))]

set_option maxRecDepth 8000 in
/-- Claim C2, counterexample: with a single 129-character alphanumeric
environment value, the scan stage extracts a 129-character token — longer
than the claimed 128-character upper bound, under which no stage should
have matched. -/
theorem C2_counterexample :
    (getTiingoTokenDetail envC2).token.data.length = 129 ∧
    (getTiingoTokenDetail envC2).source = "env:scan" ∧
    ¬(129 ≤ 128) := by
  refine ⟨by decide, by decide, by decide⟩

theorem buildDetail_some_inv {key value source : String} {d : Credential}
    (h : buildDetail key value source = some d) :
    d = ⟨key, extractTokenCandidate value, source⟩ ∧
    extractTokenCandidate value ≠ "" := by
  unfold buildDetail at h
  dsimp only at h
  split at h
  next hne =>
    injection h with h2
    exact ⟨h2.symm, by simpa using hne⟩
  next => cases h

theorem getTiingoTokenDetail_cases (env : EnvMap) :
    getTiingoTokenDetail env = ⟨"", "", ""⟩ ∨
    ∃ d : Credential,
      (stagePreferred env = some d ∨ stageLowercase env = some d ∨
       stageScan env = some d ∨ stageNameAsToken env = some d) ∧
      getTiingoTokenDetail env = d := by
  unfold getTiingoTokenDetail
  rcases h1 : stagePreferred env with _ | d1
  · rcases h2 : stageLowercase env with _ | d2
    · rcases h3 : stageScan env with _ | d3
      · rcases h4 : stageNameAsToken env with _ | d4
        · exact Or.inl rfl
        · exact Or.inr ⟨d4, Or.inr (Or.inr (Or.inr rfl)), rfl⟩
      · exact Or.inr ⟨d3, Or.inr (Or.inr (Or.inl rfl)), rfl⟩
    · exact Or.inr ⟨d2, Or.inr (Or.inl rfl), rfl⟩
  · exact Or.inr ⟨d1, Or.inl rfl, rfl⟩

/-- Claim C2 (amended): credential resolution searches the four stages in
order — canonical names, lower-cased names, a scan of environment values,
then names-as-tokens — returning the first match, and an empty credential
when no stage matches; every extracted token consists of
alphanumeric/`-`/`_` characters with length at least 24, but the
128-character upper bound applies only to the whole-value and
delimiter-split extraction passes, not to the final pattern scan, which can
return longer tokens. -/
theorem C2_credential_resolution :
    (∀ env : EnvMap, (getTiingoTokenDetail env).token ≠ "" →
      24 ≤ (getTiingoTokenDetail env).token.data.length ∧
      ∀ c ∈ (getTiingoTokenDetail env).token.data, isTokenChar c) ∧
    (∀ (env : EnvMap) (ks₁ : List String) (k₀ : String) (ks₂ : List String),
      TIINGO_TOKEN_ENV_KEYS = ks₁ ++ k₀ :: ks₂ →
      (∀ k ∈ ks₁, extractTokenCandidate (readEnvValue env k) = "") →
      extractTokenCandidate (readEnvValue env k₀) ≠ "" →
      getTiingoTokenDetail env =
        ⟨k₀, extractTokenCandidate (readEnvValue env k₀), "env:preferred"⟩) ∧
    (∀ (env : EnvMap) (ks₁ : List String) (k₀ : String) (ks₂ : List String),
      stagePreferred env = none →
      TIINGO_TOKEN_ENV_KEYS = ks₁ ++ k₀ :: ks₂ →
      (∀ k ∈ ks₁,
        extractTokenCandidate (readEnvValue env (jsToLower k)) = "") →
      extractTokenCandidate (readEnvValue env (jsToLower k₀)) ≠ "" →
      getTiingoTokenDetail env =
        ⟨jsToLower k₀, extractTokenCandidate (readEnvValue env (jsToLower k₀)),
         "env:lowercase"⟩) ∧
    (∀ (e₁ e₂ : EnvMap) (kv : String × String),
      stagePreferred (e₁ ++ kv :: e₂) = none →
      stageLowercase (e₁ ++ kv :: e₂) = none →
      (∀ kv2 ∈ e₁, extractTokenCandidate kv2.2 = "") →
      extractTokenCandidate kv.2 ≠ "" →
      getTiingoTokenDetail (e₁ ++ kv :: e₂) =
        ⟨kv.1, extractTokenCandidate kv.2, "env:scan"⟩) ∧
    (∀ (e₁ e₂ : EnvMap) (kv : String × String),
      stagePreferred (e₁ ++ kv :: e₂) = none →
      stageLowercase (e₁ ++ kv :: e₂) = none →
      stageScan (e₁ ++ kv :: e₂) = none →
      (∀ kv2 ∈ e₁, extractTokenCandidate kv2.1 = "") →
      extractTokenCandidate kv.1 ≠ "" →
      getTiingoTokenDetail (e₁ ++ kv :: e₂) =
        ⟨kv.1, extractTokenCandidate kv.1, "env:name-as-token"⟩) ∧
    (∀ env : EnvMap,
      (∀ k ∈ TIINGO_TOKEN_ENV_KEYS,
        extractTokenCandidate (readEnvValue env k) = "") →
      (∀ k ∈ TIINGO_TOKEN_ENV_KEYS,
        extractTokenCandidate (readEnvValue env (jsToLower k)) = "") →
      (∀ kv ∈ env, extractTokenCandidate kv.2 = "") →
      (∀ kv ∈ env, extractTokenCandidate kv.1 = "") →
      getTiingoTokenDetail env = ⟨"", "", ""⟩) := by
  refine ⟨?_, ?_, ?_, ?_, ?_, ?_⟩
  · intro env hne
    rcases getTiingoTokenDetail_cases env with hempty | ⟨d, hstage, hd⟩
    · rw [hempty] at hne
      exact absurd rfl hne
    · rw [hd] at hne ⊢
      have hb : ∃ key value source,
          buildDetail key value source = some d := by
        rcases hstage with h | h | h | h
        · obtain ⟨k, _, hfk⟩ := List.exists_of_findSome?_eq_some h
          exact ⟨k, readEnvValue env k, "env:preferred", hfk⟩
        · obtain ⟨k, _, hfk⟩ := List.exists_of_findSome?_eq_some h
          exact ⟨jsToLower k, readEnvValue env (jsToLower k),
            "env:lowercase", hfk⟩
        · obtain ⟨kv, _, hfk⟩ := List.exists_of_findSome?_eq_some h
          exact ⟨kv.1, kv.2, "env:scan", hfk⟩
        · obtain ⟨kv, _, hfk⟩ := List.exists_of_findSome?_eq_some h
          exact ⟨kv.1, kv.1, "env:name-as-token", hfk⟩
      obtain ⟨k, v, s, hbd⟩ := hb
      obtain ⟨hd2, hne2⟩ := buildDetail_some_inv hbd
      subst hd2
      exact extractTokenCandidate_shape rfl hne2
  · intro env ks₁ k₀ ks₂ hsplit hnone hhit
    have hstage : stagePreferred env = some
        ⟨k₀, extractTokenCandidate (readEnvValue env k₀), "env:preferred"⟩ := by
      unfold stagePreferred
      rw [hsplit]
      exact findSome?_first_hit _ ks₁ k₀ ks₂
        (fun x hx => buildDetail_eq_none (hnone x hx))
        (buildDetail_eq_some hhit)
    unfold getTiingoTokenDetail
    rw [hstage]
  · intro env ks₁ k₀ ks₂ hpref hsplit hnone hhit
    have hstage : stageLowercase env = some
        ⟨jsToLower k₀, extractTokenCandidate (readEnvValue env (jsToLower k₀)),
         "env:lowercase"⟩ := by
      unfold stageLowercase
      rw [hsplit]
      exact findSome?_first_hit _ ks₁ k₀ ks₂
        (fun x hx => buildDetail_eq_none (hnone x hx))
        (buildDetail_eq_some hhit)
    unfold getTiingoTokenDetail
    rw [hpref, hstage]
  · intro e₁ e₂ kv hpref hlow hnone hhit
    have hstage : stageScan (e₁ ++ kv :: e₂) = some
        ⟨kv.1, extractTokenCandidate kv.2, "env:scan"⟩ := by
      unfold stageScan
      exact findSome?_first_hit _ e₁ kv e₂
        (fun x hx => buildDetail_eq_none (hnone x hx))
        (buildDetail_eq_some hhit)
    unfold getTiingoTokenDetail
    rw [hpref, hlow, hstage]
  · intro e₁ e₂ kv hpref hlow hscan hnone hhit
    have hstage : stageNameAsToken (e₁ ++ kv :: e₂) = some
        ⟨kv.1, extractTokenCandidate kv.1, "env:name-as-token"⟩ := by
      unfold stageNameAsToken
      exact findSome?_first_hit _ e₁ kv e₂
        (fun x hx => buildDetail_eq_none (hnone x hx))
        (buildDetail_eq_some hhit)
    unfold getTiingoTokenDetail
    rw [hpref, hlow, hscan, hstage]
  · intro env h1 h2 h3 h4
    have e1 : stagePreferred env = none := by
      unfold stagePreferred
      exact List.findSome?_eq_none_iff.mpr
        (fun k hk => buildDetail_eq_none (h1 k hk))
    have e2 : stageLowercase env = none := by
      unfold stageLowercase
      exact List.findSome?_eq_none_iff.mpr
        (fun k hk => buildDetail_eq_none (h2 k hk))
    have e3 : stageScan env = none := by
      unfold stageScan
      exact List.findSome?_eq_none_iff.mpr
        (fun kv hkv => buildDetail_eq_none (h3 kv hkv))
    have e4 : stageNameAsToken env = none := by
      unfold stageNameAsToken
      exact List.findSome?_eq_none_iff.mpr
        (fun kv hkv => buildDetail_eq_none (h4 kv hkv))
    unfold getTiingoTokenDetail
    rw [e1, e2, e3, e4]

/-- The environment used to witness the preferred-stage clause of C2. -/
def envC2W : EnvMap := [("TIINGO_KEY", String.mk (List.replicate 24 'a'))]

set_option maxRecDepth 4000 in
/-- Witness for C2: with `TIINGO_KEY` bound to a 24-character token, the
resolver returns it with source `env:preferred`. -/
theorem C2_witness :
    getTiingoTokenDetail envC2W =
      ⟨"TIINGO_KEY", extractTokenCandidate (readEnvValue envC2W "TIINGO_KEY"),
       "env:preferred"⟩ :=
  C2_credential_resolution.2.1 envC2W [] "TIINGO_KEY"
    ["TIINGO_API_KEY", "TIINGO_API_TOKEN", "TIINGO_TOKEN",
     "TIINGO_ACCESS_TOKEN", "TIINGO_ACCESS_KEY", "TIINGO_AUTH_TOKEN",
     "TIINGO_SECRET", "TIINGO_API_SECRET", "REACT_APP_TIINGO_KEY",
     "REACT_APP_TIINGO_TOKEN", "REACT_APP_API_KEY", "VITE_TIINGO_KEY",
     "VITE_TIINGO_TOKEN", "VITE_APP_TIINGO_KEY", "VITE_APP_TIINGO_TOKEN"]
    rfl (by simp) (by decide)

/-! ## Claims C1, C3 and C10 -/

/-- Extract the envelope from a response body, if that is what it is. -/
def envelopeOf : TiingoFn.BodyV → Option TiingoFn.ResponseBody
  | .envelope b => some b
  | _ => none

/-- A handler context with no token and failing upstream. -/
def ctxNoToken : TiingoFn.HandlerCtx :=
  { token := none, fetch := .throwErr "network down", rand := fun _ => 0
    sinO := fun _ => 0, nowMs := 0, toIso := fun _ => "", nowIso := "now" }

/-- A handler context with a configured token. -/
def ctxWithToken : TiingoFn.HandlerCtx :=
  { token := some "abcdefghij1234567890abcd", fetch := .throwErr "network down"
    rand := fun _ => 0, sinO := fun _ => 0, nowMs := 0, toIso := fun _ => ""
    nowIso := "now" }

/-- Claim C1, counterexample: an OPTIONS request with a non-empty `symbol`
returns 200 with an empty body — not a response envelope — and an OPTIONS
request without a symbol does not return 400. -/
theorem C1_counterexample :
    (TiingoFn.handler ⟨"OPTIONS", some "AAPL", none, none, none⟩
        ctxNoToken).1.statusCode = 200 ∧
    (TiingoFn.handler ⟨"OPTIONS", some "AAPL", none, none, none⟩
        ctxNoToken).1.body = .empty ∧
    (TiingoFn.handler ⟨"OPTIONS", none, none, none, none⟩
        ctxNoToken).1.statusCode ≠ 400 := by
  refine ⟨rfl, rfl, by decide⟩

/-- Claim C1 (amended): for every non-OPTIONS request the handler returns
400 exactly when the trimmed `symbol` is empty; with a non-empty symbol it
returns 200 with a response envelope (carrying the upper-cased symbol), and
the status is always 200 or 400 — never 5xx — regardless of token,
upstream outcome, randomness or kind. -/
theorem C1_request_status (ev : TiingoFn.HandlerEvent)
    (ctx : TiingoFn.HandlerCtx) (hm : ev.httpMethod ≠ "OPTIONS") :
    ((TiingoFn.handler ev ctx).1.statusCode = 400 ↔
      jsTrim (ev.symbol.getD "") = "") ∧
    (jsTrim (ev.symbol.getD "") ≠ "" →
      (TiingoFn.handler ev ctx).1.statusCode = 200 ∧
      (envelopeOf (TiingoFn.handler ev ctx).1.body).map
          TiingoFn.ResponseBody.symbol =
        some (jsToUpper (jsTrim (ev.symbol.getD "")))) ∧
    ((TiingoFn.handler ev ctx).1.statusCode = 200 ∨
      (TiingoFn.handler ev ctx).1.statusCode = 400) := by
  unfold TiingoFn.handler
  rw [if_neg hm]
  by_cases hs : jsTrim (ev.symbol.getD "") = ""
  · dsimp only
    rw [if_pos hs]
    exact ⟨by simp [hs], fun hns => absurd hs hns, Or.inr rfl⟩
  · dsimp only
    rw [if_neg hs]
    refine ⟨by simp [hs], fun _ => ⟨rfl, rfl⟩, Or.inl rfl⟩

/-- Witness for C1 at a concrete GET request. -/
theorem C1_witness :
    (((TiingoFn.handler ⟨"GET", some "AAPL", some "news", none, none⟩
        ctxNoToken).1.statusCode = 400 ↔
      jsTrim ((some "AAPL" : Option String).getD "") = "") ∧
    (jsTrim ((some "AAPL" : Option String).getD "") ≠ "" →
      (TiingoFn.handler ⟨"GET", some "AAPL", some "news", none, none⟩
          ctxNoToken).1.statusCode = 200 ∧
      (envelopeOf (TiingoFn.handler ⟨"GET", some "AAPL", some "news", none,
          none⟩ ctxNoToken).1.body).map TiingoFn.ResponseBody.symbol =
        some (jsToUpper (jsTrim ((some "AAPL" : Option String).getD "")))) ∧
    ((TiingoFn.handler ⟨"GET", some "AAPL", some "news", none, none⟩
        ctxNoToken).1.statusCode = 200 ∨
      (TiingoFn.handler ⟨"GET", some "AAPL", some "news", none, none⟩
        ctxNoToken).1.statusCode = 400)) :=
  C1_request_status ⟨"GET", some "AAPL", some "news", none, none⟩ ctxNoToken
    (by decide)

theorem routeKind_no_token (ev : TiingoFn.HandlerEvent)
    (ctx : TiingoFn.HandlerCtx) (meta : TiingoFn.Meta)
    (kind rawSymbol mappedSymbol : String)
    (ht : TiingoFn.tokenTruthy ctx.token = false) :
    ((TiingoFn.routeKind ev ctx meta kind rawSymbol
        mappedSymbol).meta.reason = "fallback" ∨
     (TiingoFn.routeKind ev ctx meta kind rawSymbol
        mappedSymbol).meta.reason = "unsupported") ∧
    (kind ∈ TiingoFn.docKinds →
      (TiingoFn.routeKind ev ctx meta kind rawSymbol mappedSymbol).warning
        = "") ∧
    (kind ∉ TiingoFn.docKinds →
      (TiingoFn.routeKind ev ctx meta kind rawSymbol mappedSymbol).warning
        ≠ "") ∧
    (TiingoFn.routeKind ev ctx meta kind rawSymbol mappedSymbol).fetches
      = 0 := by
  unfold TiingoFn.routeKind
  by_cases h1 : kind = "intraday_latest"
  · subst h1
    rw [if_pos rfl]
    refine ⟨Or.inl ?_, fun hmem => absurd hmem (by decide), fun _ => ?_, ?_⟩
      <;> simp [TiingoFn.branchIntradayLatest, ht, TiingoFn.applyFallback]
  · rw [if_neg h1]
    by_cases h2 : kind = "intraday"
    · subst h2
      rw [if_pos rfl]
      refine ⟨Or.inl ?_, fun hmem => absurd hmem (by decide), fun _ => ?_, ?_⟩
        <;> simp [TiingoFn.branchIntraday, ht, TiingoFn.applyFallback]
    · rw [if_neg h2]
      by_cases h3 : kind = "eod"
      · subst h3
        rw [if_pos rfl]
        refine ⟨Or.inl ?_, fun hmem => absurd hmem (by decide),
            fun _ => ?_, ?_⟩
          <;> simp [TiingoFn.branchEod, ht, TiingoFn.applyFallback]
      · rw [if_neg h3]
        by_cases h4 : kind ∈ TiingoFn.docKinds
        · rw [if_pos h4]
          refine ⟨Or.inl ?_, fun _ => ?_, fun hnm => absurd h4 hnm, ?_⟩
            <;> simp [TiingoFn.branchDocs, ht]
        · rw [if_neg h4]
          refine ⟨Or.inr ?_, fun hmem => absurd hmem h4, fun _ => ?_, ?_⟩
            <;> simp [TiingoFn.branchDefault]

/-- Claim C3, counterexample: with no token and `kind=news`, the envelope
carries `meta.reason = "fallback"` but NO `warning` field at all. -/
theorem C3_counterexample :
    (envelopeOf (TiingoFn.handler ⟨"GET", some "AAPL", some "news", none,
        none⟩ ctxNoToken).1.body).map TiingoFn.ResponseBody.warning =
      some none ∧
    (envelopeOf (TiingoFn.handler ⟨"GET", some "AAPL", some "news", none,
        none⟩ ctxNoToken).1.body).map (fun b => b.meta.reason) =
      some "fallback" := ⟨rfl, rfl⟩

/-- Claim C3 (amended): with no credential, every non-OPTIONS request with a
non-empty symbol yields an envelope whose `meta.reason` is not `"ok"`; the
`warning` field is present and non-empty for every kind except the five
document kinds (`news`/`documents`/`actions`/`filings`/`statements`),
where the envelope carries no warning at all. -/
theorem C3_no_credential_response (ev : TiingoFn.HandlerEvent)
    (ctx : TiingoFn.HandlerCtx) (hm : ev.httpMethod ≠ "OPTIONS")
    (hs : jsTrim (ev.symbol.getD "") ≠ "")
    (ht : TiingoFn.tokenTruthy ctx.token = false) :
    ∀ b, envelopeOf (TiingoFn.handler ev ctx).1.body = some b →
      b.meta.reason ≠ "ok" ∧
      (TiingoFn.normaliseKind ev.kind ∈ TiingoFn.docKinds →
        b.warning = none) ∧
      (TiingoFn.normaliseKind ev.kind ∉ TiingoFn.docKinds →
        b.warning.getD "" ≠ "") := by
  intro b hb
  unfold TiingoFn.handler at hb
  rw [if_neg hm] at hb
  dsimp only at hb
  rw [if_neg hs] at hb
  simp only [envelopeOf, Option.some.injEq] at hb
  subst hb
  have hrt := routeKind_no_token ev ctx
    { currency := TiingoFn.detectCurrency
        (TiingoFn.mapSymbolForAPI (jsTrim (ev.symbol.getD "")))
      exchange := TiingoFn.detectExchange
        (TiingoFn.mapSymbolForAPI (jsTrim (ev.symbol.getD "")))
      timestamp := ctx.nowIso
      kind := TiingoFn.normaliseKind ev.kind
      source := "live"
      fallback := ""
      reason := "ok"
      chosenKey := if TiingoFn.tokenTruthy ctx.token then "env:TIINGO_KEY"
        else ""
      tokenPreview := TiingoFn.previewToken ctx.token
      message := none }
    (TiingoFn.normaliseKind ev.kind) (jsTrim (ev.symbol.getD ""))
    (TiingoFn.mapSymbolForAPI (jsTrim (ev.symbol.getD ""))) ht
  dsimp only
  refine ⟨?_, ?_, ?_⟩
  · rcases hrt.1 with h | h <;> rw [h] <;> decide
  · intro hmem
    rw [hrt.2.1 hmem]
    simp
  · intro hmem
    rw [if_pos (hrt.2.2.1 hmem)]
    simpa using hrt.2.2.1 hmem

/-- Witness for C3: with no token, a concrete `kind=eod` request's envelope
does not report `meta.reason = "ok"`. -/
theorem C3_witness :
    (envelopeOf (TiingoFn.handler ⟨"GET", some "MSFT", some "eod", none,
        none⟩ ctxNoToken).1.body).map (fun b => b.meta.reason) ≠
      some "ok" := by
  obtain ⟨b, hb⟩ : ∃ b, envelopeOf (TiingoFn.handler
      ⟨"GET", some "MSFT", some "eod", none, none⟩
      ctxNoToken).1.body = some b := ⟨_, rfl⟩
  have h := (C3_no_credential_response
    ⟨"GET", some "MSFT", some "eod", none, none⟩ ctxNoToken
    (by decide) (by decide) (by decide) b hb).1
  intro hcontra
  rw [hb] at hcontra
  simp only [Option.map_some', Option.some.injEq] at hcontra
  exact h hcontra

set_option maxHeartbeats 2000000 in
/-- Claim C10: for the kinds `news`/`documents`/`actions`/`filings`/
`statements`, the handler issues no upstream fetch and returns an empty
array as `data`; when a token is configured, the envelope still reports
`meta.source = "live"` and `meta.reason = "ok"` with no warning field. -/
theorem C10_doc_kinds_response (ev : TiingoFn.HandlerEvent)
    (ctx : TiingoFn.HandlerCtx) (hm : ev.httpMethod ≠ "OPTIONS")
    (hs : jsTrim (ev.symbol.getD "") ≠ "")
    (hk : TiingoFn.normaliseKind ev.kind ∈ TiingoFn.docKinds) :
    (TiingoFn.handler ev ctx).2 = 0 ∧
    ∀ b, envelopeOf (TiingoFn.handler ev ctx).1.body = some b →
      b.data = TiingoFn.HData.emptyArr ∧
      (TiingoFn.tokenTruthy ctx.token = true →
        b.meta.source = "live" ∧ b.meta.reason = "ok" ∧ b.warning = none) := by
  have hne1 : TiingoFn.normaliseKind ev.kind ≠ "intraday_latest" := by
    intro hcontra
    rw [hcontra] at hk
    exact absurd hk (by decide)
  have hne2 : TiingoFn.normaliseKind ev.kind ≠ "intraday" := by
    intro hcontra
    rw [hcontra] at hk
    exact absurd hk (by decide)
  have hne3 : TiingoFn.normaliseKind ev.kind ≠ "eod" := by
    intro hcontra
    rw [hcontra] at hk
    exact absurd hk (by decide)
  constructor
  · unfold TiingoFn.handler
    rw [if_neg hm]
    dsimp only
    rw [if_neg hs]
    dsimp only
    unfold TiingoFn.routeKind
    rw [if_neg hne1, if_neg hne2, if_neg hne3, if_pos hk]
    unfold TiingoFn.branchDocs
    by_cases ht : TiingoFn.tokenTruthy ctx.token = true
    · rw [if_pos ht]
    · rw [if_neg (by simpa using ht)]
  · intro b hb
    unfold TiingoFn.handler at hb
    rw [if_neg hm] at hb
    dsimp only at hb
    rw [if_neg hs] at hb
    unfold TiingoFn.routeKind at hb
    rw [if_neg hne1, if_neg hne2, if_neg hne3, if_pos hk] at hb
    unfold TiingoFn.branchDocs at hb
    by_cases ht : TiingoFn.tokenTruthy ctx.token = true
    · rw [if_pos ht] at hb
      simp only [envelopeOf, Option.some.injEq] at hb
      subst hb
      exact ⟨rfl, fun _ => ⟨rfl, rfl, rfl⟩⟩
    · rw [if_neg (by simpa using ht)] at hb
      simp only [envelopeOf, Option.some.injEq] at hb
      subst hb
      exact ⟨rfl, fun hcontra => absurd hcontra ht⟩

/-- Witness for C10: a concrete `kind=filings` request with a token
configured. -/
theorem C10_witness :
    (TiingoFn.handler ⟨"GET", some "AAPL", some "filings", none, none⟩
        ctxWithToken).2 = 0 := by
  have h := C10_doc_kinds_response
    ⟨"GET", some "AAPL", some "filings", none, none⟩ ctxWithToken
    (by decide) (by decide) (by decide)
  exact h.1

/-! ## Claims C8 and C9 -/

theorem charsContain_empty (l : List Char) : charsContain l [] = true := by
  induction l with
  | nil => rfl
  | cons c rest ih => simp [charsContain, ih]

theorem charsContain_append_right {l : List Char} (pat l₂ : List Char)
    (h : charsContain l pat = true) : charsContain (l ++ l₂) pat = true := by
  induction l with
  | nil =>
    simp only [charsContain, List.isEmpty_iff] at h
    subst h
    exact charsContain_empty l₂
  | cons c rest ih =>
    simp only [charsContain, Bool.or_eq_true] at h ⊢
    rcases h with h | h
    · left
      rw [List.isPrefixOf_iff_prefix] at h ⊢
      exact h.trans (List.prefix_append (c :: rest) l₂)
    · right
      exact ih h

theorem strIncludes_append {a b pat : String}
    (h : strIncludes a pat = true) : strIncludes (a ++ b) pat = true := by
  unfold strIncludes at h ⊢
  rw [String.data_append]
  exact charsContain_append_right pat.data b.data h

theorem runAttempts_fetches_pos (rd : Int)
    (o : Nat → TiingoClient.FetchAttempt) (a fuel : Nat) :
    1 ≤ (TiingoClient.runAttempts rd o a fuel).2.1 := by
  rw [TiingoClient.runAttempts]
  cases o a with
  | success v => exact le_refl 1
  | httpError status text =>
    dsimp only
    split
    · exact le_refl 1
    · split
      · exact le_refl 1
      · simp
  | netError msg =>
    dsimp only
    split
    · exact le_refl 1
    · split
      · exact le_refl 1
      · simp

theorem lookup_head {α β : Type} [BEq α] [LawfulBEq α] (k : α) (x : β)
    (rest : List (α × β)) : List.lookup k ((k, x) :: rest) = some x := by
  simp [List.lookup]

theorem makeRequest_fresh_success (rd : Int) (e : String)
    (p : List (String × String)) (opts : TiingoClient.MakeOptions) (t0 : Int)
    (o : Nat → TiingoClient.FetchAttempt) (st : TiingoClient.CacheMap)
    (v : Json) (hskip : opts.skipCache = false)
    (hmiss : st.lookup (TiingoClient.getCacheKey e p) = none)
    (hsucc : o 0 = .success v) :
    TiingoClient.makeRequest true rd e p opts t0 o st =
      ⟨.ok v, TiingoClient.cacheSet st t0 opts.cacheTtl
          (TiingoClient.getCacheKey e p) v, 1, []⟩ := by
  unfold TiingoClient.makeRequest TiingoClient.cacheGet
  rw [hskip]
  dsimp only
  rw [hmiss, TiingoClient.runAttempts, hsucc]
  simp

theorem cacheSet_eq (m : TiingoClient.CacheMap) (now ttl : Int) (k : String)
    (v : Json) :
    TiingoClient.cacheSet m now ttl k v =
      (k, ⟨v, now + ttl⟩) :: m.filter (fun kv => kv.1 ≠ k) := rfl

theorem cacheGet_cons_live (now : Int) (k : String) (v : Json)
    (expiresAt : Int) (rest : TiingoClient.CacheMap)
    (h : ¬now > expiresAt) :
    TiingoClient.cacheGet now ((k, ⟨v, expiresAt⟩) :: rest) k =
      (some v, (k, ⟨v, expiresAt⟩) :: rest) := by
  unfold TiingoClient.cacheGet
  rw [lookup_head]
  simp [h]

theorem cacheGet_cons_expired (now : Int) (k : String) (v : Json)
    (expiresAt : Int) (rest : TiingoClient.CacheMap)
    (h : now > expiresAt) :
    TiingoClient.cacheGet now ((k, ⟨v, expiresAt⟩) :: rest) k =
      (none, ((k, ⟨v, expiresAt⟩) :: rest).filter (fun kv => kv.1 ≠ k)) := by
  unfold TiingoClient.cacheGet
  rw [lookup_head]
  simp [h]

theorem makeRequest_cache_hit (rd : Int) (e : String)
    (p : List (String × String)) (opts : TiingoClient.MakeOptions) (t1 : Int)
    (o2 : Nat → TiingoClient.FetchAttempt) (m : TiingoClient.CacheMap)
    (v : Json) (hskip : opts.skipCache = false)
    (hget : TiingoClient.cacheGet t1 m (TiingoClient.getCacheKey e p) =
      (some v, m))
    (htruthy : jsTruthy v = true) :
    TiingoClient.makeRequest true rd e p opts t1 o2 m = ⟨.ok v, m, 0, []⟩ := by
  unfold TiingoClient.makeRequest
  rw [hskip]
  dsimp only
  rw [hget]
  simp [htruthy]

theorem makeRequest_miss_fetches (rd : Int) (e : String)
    (p : List (String × String)) (opts : TiingoClient.MakeOptions) (t1 : Int)
    (o2 : Nat → TiingoClient.FetchAttempt) (m : TiingoClient.CacheMap)
    (hskip : opts.skipCache = false)
    (hget : (TiingoClient.cacheGet t1 m (TiingoClient.getCacheKey e p)).1 =
      none) :
    1 ≤ (TiingoClient.makeRequest true rd e p opts t1 o2 m).fetches := by
  unfold TiingoClient.makeRequest
  rw [hskip]
  dsimp only
  rw [show TiingoClient.cacheGet t1 m (TiingoClient.getCacheKey e p) =
    (none, (TiingoClient.cacheGet t1 m (TiingoClient.getCacheKey e p)).2)
    from Prod.ext hget rfl]
  rw [if_pos (⟨rfl, Bool.false_ne_true⟩ : true = true ∧ ¬false = true)]
  dsimp only
  split <;> exact runAttempts_fetches_pos rd o2 0 opts.retries

/-- Claim C8 (amended): with caching enabled, a second `makeRequest` with
the same endpoint and parameters within the entry's TTL returns the cached
value with zero fetches and an unchanged cache — provided the cached value
is truthy (a falsy cached payload such as JSON `null` is not served and
triggers a fresh fetch); once the TTL has elapsed the entry is treated as
absent (deleted on access) and a fresh fetch is issued. -/
theorem C8_cache_ttl :
    (∀ (rd : Int) (e : String) (p : List (String × String))
        (opts : TiingoClient.MakeOptions) (t0 t1 : Int)
        (o1 o2 : Nat → TiingoClient.FetchAttempt)
        (st : TiingoClient.CacheMap) (v : Json),
      opts.skipCache = false →
      st.lookup (TiingoClient.getCacheKey e p) = none →
      o1 0 = .success v →
      jsTruthy v = true →
      t1 ≤ t0 + opts.cacheTtl →
      TiingoClient.makeRequest true rd e p opts t1 o2
          (TiingoClient.makeRequest true rd e p opts t0 o1 st).cache =
        ⟨.ok v,
         (TiingoClient.makeRequest true rd e p opts t0 o1 st).cache, 0,
         []⟩) ∧
    (∀ (rd : Int) (e : String) (p : List (String × String))
        (opts : TiingoClient.MakeOptions) (t0 t1 : Int)
        (o1 o2 : Nat → TiingoClient.FetchAttempt)
        (st : TiingoClient.CacheMap) (v : Json),
      opts.skipCache = false →
      st.lookup (TiingoClient.getCacheKey e p) = none →
      o1 0 = .success v →
      t0 + opts.cacheTtl < t1 →
      1 ≤ (TiingoClient.makeRequest true rd e p opts t1 o2
          (TiingoClient.makeRequest true rd e p opts t0 o1 st).cache).fetches ∧
      (TiingoClient.cacheGet t1
          (TiingoClient.makeRequest true rd e p opts t0 o1 st).cache
          (TiingoClient.getCacheKey e p)).1 = none) := by
  constructor
  · intro rd e p opts t0 t1 o1 o2 st v hskip hmiss hsucc htruthy ht
    rw [makeRequest_fresh_success rd e p opts t0 o1 st v hskip hmiss hsucc]
    refine makeRequest_cache_hit rd e p opts t1 o2 _ v hskip ?_ htruthy
    rw [cacheSet_eq]
    exact cacheGet_cons_live t1 (TiingoClient.getCacheKey e p) v
      (t0 + opts.cacheTtl) _ (by omega)
  · intro rd e p opts t0 t1 o1 o2 st v hskip hmiss hsucc hexp
    rw [makeRequest_fresh_success rd e p opts t0 o1 st v hskip hmiss hsucc]
    have hget : (TiingoClient.cacheGet t1
        (TiingoClient.cacheSet st t0 opts.cacheTtl
          (TiingoClient.getCacheKey e p) v)
        (TiingoClient.getCacheKey e p)).1 = none := by
      rw [cacheSet_eq]
      rw [cacheGet_cons_expired t1 (TiingoClient.getCacheKey e p) v
        (t0 + opts.cacheTtl) _ (by omega)]
    exact ⟨makeRequest_miss_fetches rd e p opts t1 o2 _ hskip hget, hget⟩

/-- Claim C8, counterexample: when the upstream returns JSON `null`, a
second identical call one millisecond later — far within the 60s TTL —
still issues a fresh fetch, because the falsy cached value fails the
`if (cached)` test. -/
theorem C8_counterexample :
    (TiingoClient.makeRequest true 1000 "/e" [] {} 1
        (fun _ => .success .null)
        (TiingoClient.makeRequest true 1000 "/e" [] {} 0
          (fun _ => .success .null) []).cache).fetches = 1 ∧
    ((1 : Int) ≤ 0 + ({} : TiingoClient.MakeOptions).cacheTtl) := by
  exact ⟨by decide, by decide⟩

/-- Witness for C8: a concrete truthy cached value served within TTL with
no fetch, and a concrete expired entry refetched. -/
theorem C8_witness :
    (TiingoClient.makeRequest true 1000 "/x" [("a", "1")] {} 100
        (fun _ => .netError "x")
        (TiingoClient.makeRequest true 1000 "/x" [("a", "1")] {} 0
          (fun _ => .success (.arr [])) []).cache =
      ⟨.ok (.arr []),
       (TiingoClient.makeRequest true 1000 "/x" [("a", "1")] {} 0
         (fun _ => .success (.arr [])) []).cache, 0, []⟩) ∧
    1 ≤ (TiingoClient.makeRequest true 1000 "/x" [("a", "1")] {} 70000
        (fun _ => .netError "x")
        (TiingoClient.makeRequest true 1000 "/x" [("a", "1")] {} 0
          (fun _ => .success (.arr [])) []).cache).fetches := by
  constructor
  · exact C8_cache_ttl.1 1000 "/x" [("a", "1")] {} 0 100 _ _ [] (.arr [])
      rfl rfl rfl rfl (by decide)
  · exact (C8_cache_ttl.2 1000 "/x" [("a", "1")] {} 0 70000 _ _ [] (.arr [])
      rfl rfl rfl (by decide)).1

theorem rangeMap_pow (rd : Int) (a n : Nat) :
    rd * 2 ^ a :: (List.range n).map (fun j => rd * 2 ^ (a + 1 + j)) =
      (List.range (n + 1)).map (fun j => rd * 2 ^ (a + j)) := by
  rw [List.range_succ_eq_map, List.map_cons, List.map_map]
  refine congrArg₂ List.cons ?_ ?_
  · norm_num
  · refine List.map_congr_left ?_
    intro x _
    simp only [Function.comp]
    rw [show a + 1 + x = a + (x + 1) from by omega]

theorem runAttempts_all_fail (rd : Int)
    (o : Nat → TiingoClient.FetchAttempt) :
    ∀ (fuel a : Nat),
      (∀ i, a ≤ i → i ≤ a + fuel →
        TiingoClient.contains4xx (TiingoClient.attemptMessage (o i))
          = false) →
      (∀ i, a ≤ i → i ≤ a + fuel → ∀ v : Json, o i ≠ .success v) →
      TiingoClient.runAttempts rd o a fuel =
        (.error (TiingoClient.attemptMessage (o (a + fuel))), fuel + 1,
         (List.range fuel).map (fun j => rd * 2 ^ (a + j))) := by
  intro fuel
  induction fuel with
  | zero =>
    intro a h4 hf
    rw [TiingoClient.runAttempts]
    rcases ho : o a with v | ⟨status, text⟩ | msg
    · exact absurd ho (hf a (le_refl a) (by omega) v)
    · have hc := h4 a (le_refl a) (by omega)
      rw [ho] at hc
      dsimp only
      rw [if_neg (by simp [hc])]
      simp [ho]
    · have hc := h4 a (le_refl a) (by omega)
      rw [ho] at hc
      dsimp only
      rw [if_neg (by simp [hc])]
      simp [ho]
  | succ n ih =>
    intro a h4 hf
    rw [TiingoClient.runAttempts]
    rcases ho : o a with v | ⟨status, text⟩ | msg
    · exact absurd ho (hf a (le_refl a) (by omega) v)
    · have hc := h4 a (le_refl a) (by omega)
      rw [ho] at hc
      dsimp only
      rw [if_neg (by simp [hc])]
      rw [ih (a + 1) (fun i h1 h2 => h4 i (by omega) (by omega))
        (fun i h1 h2 => hf i (by omega) (by omega))]
      rw [show a + 1 + n = a + (n + 1) from by omega, rangeMap_pow]
    · have hc := h4 a (le_refl a) (by omega)
      rw [ho] at hc
      dsimp only
      rw [if_neg (by simp [hc])]
      rw [ih (a + 1) (fun i h1 h2 => h4 i (by omega) (by omega))
        (fun i h1 h2 => hf i (by omega) (by omega))]
      rw [show a + 1 + n = a + (n + 1) from by omega, rangeMap_pow]

theorem contains4xx_httpError (status : Nat) (text pat : String)
    (hp : pat = "400" ∨ pat = "401" ∨ pat = "403" ∨ pat = "404")
    (h : strIncludes ("Tiingo API error " ++ toString status ++ ": ") pat
      = true) :
    TiingoClient.contains4xx
      (TiingoClient.attemptMessage (.httpError status text)) = true := by
  unfold TiingoClient.contains4xx TiingoClient.attemptMessage
  have h2 := strIncludes_append (b := text) h
  rcases hp with rfl | rfl | rfl | rfl <;> simp [h2]

theorem runAttempts_4xx_stops (rd : Int)
    (o : Nat → TiingoClient.FetchAttempt) (retries : Nat) (status : Nat)
    (text : String) (h0 : o 0 = .httpError status text)
    (hst : status = 400 ∨ status = 401 ∨ status = 403 ∨ status = 404) :
    TiingoClient.runAttempts rd o 0 retries =
      (.error ("Tiingo API error " ++ toString status ++ ": " ++ text), 1,
       []) := by
  rw [TiingoClient.runAttempts, h0]
  dsimp only
  have hc : TiingoClient.contains4xx
      (TiingoClient.attemptMessage (.httpError status text)) = true := by
    rcases hst with rfl | rfl | rfl | rfl
    · exact contains4xx_httpError _ text "400" (Or.inl rfl) (by decide)
    · exact contains4xx_httpError _ text "401" (Or.inr (Or.inl rfl))
        (by decide)
    · exact contains4xx_httpError _ text "403"
        (Or.inr (Or.inr (Or.inl rfl))) (by decide)
    · exact contains4xx_httpError _ text "404"
        (Or.inr (Or.inr (Or.inr rfl))) (by decide)
  rw [if_pos hc]
  rfl

/-- Claim C9 (amended): with the cache skipped, `makeRequest` retries up to
the configured retry count with back-off `retryDelay * 2^attempt` between
attempts and finally propagates the last error; however, the client-error
cut-off is a substring test on the error message — any failure whose
message contains `"400"`, `"401"`, `"403"` or `"404"` stops immediately
after one attempt (in particular every HTTP 400/401/403/404 response,
whose status is embedded in the message), not only true 4xx client
errors. -/
theorem C9_retry_policy :
    (∀ (rd : Int) (e : String) (p : List (String × String)) (retries : Nat)
        (t : Int) (o : Nat → TiingoClient.FetchAttempt)
        (st : TiingoClient.CacheMap),
      (∀ i, TiingoClient.contains4xx (TiingoClient.attemptMessage (o i))
        = false) →
      (∀ i (v : Json), o i ≠ .success v) →
      TiingoClient.makeRequest true rd e p ⟨60000, true, retries⟩ t o st =
        ⟨.error (TiingoClient.attemptMessage (o retries)), st, retries + 1,
         (List.range retries).map (fun j => rd * 2 ^ j)⟩) ∧
    (∀ (rd : Int) (e : String) (p : List (String × String)) (retries : Nat)
        (t : Int) (o : Nat → TiingoClient.FetchAttempt)
        (st : TiingoClient.CacheMap) (status : Nat) (text : String),
      o 0 = .httpError status text →
      (status = 400 ∨ status = 401 ∨ status = 403 ∨ status = 404) →
      TiingoClient.makeRequest true rd e p ⟨60000, true, retries⟩ t o st =
        ⟨.error ("Tiingo API error " ++ toString status ++ ": " ++ text),
         st, 1, []⟩) := by
  constructor
  · intro rd e p retries t o st h4 hf
    unfold TiingoClient.makeRequest
    dsimp only
    rw [if_neg (by simp : ¬(true = true ∧ ¬true = true))]
    rw [runAttempts_all_fail rd o retries 0 (fun i _ _ => h4 i)
      (fun i _ _ => hf i)]
    dsimp only
    rw [show (0 : Nat) + retries = retries from by omega]
    have hmap : (List.range retries).map (fun j => rd * 2 ^ (0 + j)) =
        (List.range retries).map (fun j => rd * 2 ^ j) :=
      List.map_congr_left (fun x _ => by norm_num)
    rw [hmap]
  · intro rd e p retries t o st status text h0 hst
    unfold TiingoClient.makeRequest
    dsimp only
    rw [if_neg (by simp : ¬(true = true ∧ ¬true = true))]
    rw [runAttempts_4xx_stops rd o retries status text h0 hst]

/-- Claim C9, counterexample: a 500 server error whose body text happens to
contain "404" is not retried at all — one attempt, no back-off sleep —
although it is not one of the four 4xx client-error statuses. -/
theorem C9_counterexample :
    (TiingoClient.makeRequest true 1000 "/e" [] ⟨60000, true, 3⟩ 0
        (fun _ => .httpError 500 "see /404 for details") []).fetches = 1 ∧
    (TiingoClient.makeRequest true 1000 "/e" [] ⟨60000, true, 3⟩ 0
        (fun _ => .httpError 500 "see /404 for details") []).sleeps = [] ∧
    (500 : Nat) ∉ [400, 401, 403, 404] := by
  refine ⟨by decide, by decide, by decide⟩

/-- Witness for C9: a concrete 401 response stops after one attempt, and a
concrete network error is retried with doubling back-off. -/
theorem C9_witness :
    (TiingoClient.makeRequest true 1000 "/e" [] ⟨60000, true, 2⟩ 0
        (fun _ => .httpError 401 "Unauthorized") [] =
      ⟨.error ("Tiingo API error " ++ toString (401 : Nat) ++ ": " ++
        "Unauthorized"), [], 1, []⟩) ∧
    (TiingoClient.makeRequest true 1000 "/e" [] ⟨60000, true, 2⟩ 0
        (fun _ => .netError "boom") [] =
      ⟨.error (TiingoClient.attemptMessage
          ((fun _ => TiingoClient.FetchAttempt.netError "boom") 2)), [], 3,
       (List.range 2).map (fun j => 1000 * 2 ^ j)⟩) := by
  constructor
  · exact C9_retry_policy.2 1000 "/e" [] 2 0 _ [] 401 "Unauthorized" rfl
      (Or.inr (Or.inl rfl))
  · exact C9_retry_policy.1 1000 "/e" [] 2 0 _ [] (fun i => rfl)
      (fun i v h => TiingoClient.FetchAttempt.noConfusion h)
